import Mathlib

/-!
Medicure front-end: route guarding, auth redirects, the chat page, the two
dashboards and the summary view

A shallow embedding of the page logic of the Medicure front-end
(`App.js`, `pages/AuthPage.js`, `pages/ChatbotPage.js`,
`pages/PatientDashboard.js`, `pages/DoctorDashboard.js`,
`pages/SummaryView.js`).

Conventions of the embedding:

* a handler is a pure function from the component state and the outcome of
  the remote call it awaits to the new component state and the list of
  effects it performs (requests, toasts, navigations, timers), in program
  order;
* values that come from the backend are `JsVal`s, so that a reply may be any
  JSON value, or `undefined` for a missing field;
* `new Date().toISOString()` is a parameter of the handler that calls it;
* built-ins whose behaviour lies outside the repository are parameters of the
  definitions that call them: `JSON.stringify` and `encodeURIComponent` in the
  export, `String.prototype.toLowerCase` in the search filter.
-/

namespace Medicure

/-! ## JavaScript values and strings -/

/-- A JavaScript value as the pages see it: the JSON values a response carries,
plus `undefined` for a field that is missing. -/
inductive JsVal where
  | undefined : JsVal
  | null : JsVal
  | bool (b : Bool) : JsVal
  | num (n : Int) : JsVal
  | str (s : String) : JsVal
  | arr (items : List JsVal) : JsVal
  | obj (fields : List (String × JsVal)) : JsVal

/-- A JavaScript object given by its own fields, in insertion order. -/
abbrev JsObj := List (String × JsVal)

/-- Property read `o.key` on an object: the field's value, `undefined` when the
object has no such field. -/
def JsObj.get (o : JsObj) (key : String) : JsVal :=
  match o.lookup key with
  | some v => v
  | none => JsVal.undefined

/-- JavaScript truthiness of a value. -/
def jsTruthy : JsVal → Bool
  | JsVal.undefined => false
  | JsVal.null => false
  | JsVal.bool b => b
  | JsVal.num n => n != 0
  | JsVal.str s => !s.data.isEmpty
  | JsVal.arr _ => true
  | JsVal.obj _ => true

/-- JavaScript truthiness of a string-or-missing value (`undefined` is `none`):
only a non-empty string is truthy. -/
def truthyStr : Option String → Bool
  | none => false
  | some s => !s.data.isEmpty

/-- The set of characters `String.prototype.trim` strips: ECMAScript WhiteSpace
and LineTerminator code points. -/
def isJsWhitespace (c : Char) : Bool :=
  let n := c.toNat
  n == 0x09 || n == 0x0A || n == 0x0B || n == 0x0C || n == 0x0D || n == 0x20 ||
  n == 0xA0 || n == 0x1680 || (0x2000 ≤ n && n ≤ 0x200A) || n == 0x2028 ||
  n == 0x2029 || n == 0x202F || n == 0x205F || n == 0x3000 || n == 0xFEFF

/-- The method `String.prototype.trim`: strips white space from both ends. -/
def trim (s : String) : String :=
  ⟨((s.data.dropWhile isJsWhitespace).reverse.dropWhile isJsWhitespace).reverse⟩

/-- Lower-casing of one character, on the ASCII letters. -/
def lowerChar (c : Char) : Char :=
  let n := c.toNat
  if 65 ≤ n ∧ n ≤ 90 then Char.ofNat (n + 32) else c

/-- Lower-casing of the ASCII letters of a text; every other character is kept.
It is the method `String.prototype.toLowerCase` on texts of ASCII characters.
The chat page is embedded with it because there the lower-cased reply is only
searched for `generate a summary`: the built-in maps just two non-ASCII
characters to an ASCII letter (U+0130 to `i` followed by U+0307, and U+212A to
`k`) and neither letter occurs in that needle, so the search has the same result
for every reply. Where names and search terms are compared, the built-in is a
parameter instead. -/
def toLowerCase (s : String) : String :=
  ⟨s.data.map lowerChar⟩

/-- Lower-casing of one character below U+0100: the ASCII capitals and the
Latin-1 capitals U+00C0 to U+00DE, the sign U+00D7 excepted, move up by 32. -/
def lowerLatin1Char (c : Char) : Char :=
  let n := c.toNat
  if (65 ≤ n ∧ n ≤ 90) ∨ (192 ≤ n ∧ n ≤ 222 ∧ n ≠ 215) then Char.ofNat (n + 32) else c

/-- The method `String.prototype.toLowerCase` on texts whose characters are all
below U+0100; an instance of the lower-casing that the search filter takes as a
parameter. -/
def toLowerCaseLatin1 (s : String) : String :=
  ⟨s.data.map lowerLatin1Char⟩

/-- Whether `needle` occurs in `hay` as a contiguous run. -/
def includesChars (needle : List Char) : List Char → Bool
  | [] => needle.isEmpty
  | c :: cs => needle.isPrefixOf (c :: cs) || includesChars needle cs

/-- The method `String.prototype.includes`. -/
def includes (hay needle : String) : Bool :=
  includesChars needle.data hay.data

/-! ## `App.js`: the route guard and the route table -/

/-- The user object held by the auth context, as far as the pages read it. -/
structure User where
  role : Option String
  name : Option String
  deriving DecidableEq, Repr

/-- What a route element renders to: a `<Navigate to=... />` or a page. -/
inductive Rendered (α : Type) where
  | navigate (target : String) : Rendered α
  | children (c : α) : Rendered α
  deriving DecidableEq, Repr

/-- `ProtectedRoute` of `App.js`. `user` is `useAuth().user` (`none` when it is
`null`), `role` the `role` prop (`none` when the prop is not given). -/
def ProtectedRoute {α : Type} (user : Option User) (role : Option String) (children : α) :
    Rendered α :=
  match user with
  | none => Rendered.navigate "/auth"
  | some u =>
    if truthyStr role && (u.role != role) then Rendered.navigate "/"
    else Rendered.children children

/-- The page components of the route table. -/
inductive Page where
  | LandingPage | AuthPage | PatientDashboard | ChatbotPage | DoctorDashboard | SummaryView
  deriving DecidableEq, Repr

/-- The `<Routes>` table of `App`: each path pattern with its element, the
element being a function of the user state read by `useAuth`. -/
def routes : List (String × (Option User → Rendered Page)) :=
  [ ("/", fun _ => Rendered.children Page.LandingPage),
    ("/auth", fun _ => Rendered.children Page.AuthPage),
    ("/patient/dashboard", fun user => ProtectedRoute user (some "patient") Page.PatientDashboard),
    ("/patient/chat/:appointmentId", fun user => ProtectedRoute user (some "patient") Page.ChatbotPage),
    ("/doctor/dashboard", fun user => ProtectedRoute user (some "doctor") Page.DoctorDashboard),
    ("/doctor/summary/:summaryId", fun user => ProtectedRoute user (some "doctor") Page.SummaryView) ]

/-- What `App` renders for the route with path pattern `path`; `none` when the
table has no such route. -/
def App (user : Option User) (path : String) : Option (Rendered Page) :=
  (routes.lookup path).map (fun element => element user)

/-! ## Remote calls and effects -/

/-- The body of a rejected call's response, as far as the handlers read it:
its `detail`, which may be any value (a text, the list of a validation error)
and is `undefined` when the body has none. -/
structure ErrorData where
  detail : JsVal

/-- The response attached to a rejected call. -/
structure ErrorResponse where
  data : Option ErrorData

/-- The error an awaited call rejects with. An axios error carries the
response; any other error (a network failure, a `TypeError`) has none. -/
structure RequestError where
  response : Option ErrorResponse

/-- The expression `error.response?.data?.detail`. -/
def RequestError.detail (error : RequestError) : JsVal :=
  match error.response with
  | none => JsVal.undefined
  | some r =>
    match r.data with
    | none => JsVal.undefined
    | some d => d.detail

/-- How an awaited promise settles. -/
inductive Outcome (α : Type) where
  | resolved (value : α) : Outcome α
  | rejected (error : RequestError) : Outcome α

/-- A `File` picked in a file input. -/
structure File where
  name : String
  deriving DecidableEq, Repr

/-- A recorded audio `Blob`, identified by a handle. -/
structure Blob where
  handle : Nat
  deriving DecidableEq, Repr

/-- One entry of a `FormData`. -/
inductive FormValue where
  | text (s : String) : FormValue
  | file (f : File) : FormValue
  | blob (b : Blob) (filename : String) : FormValue
  deriving DecidableEq, Repr

/-- The payload of a request: a JSON value or a `FormData`. -/
inductive Body where
  | json (v : JsVal) : Body
  | form (entries : List (String × FormValue)) : Body
  | empty : Body

/-- An axios request. -/
structure Request where
  method : String
  url : String
  body : Body
  headers : List (String × String)

/-- The fields of the signup form. -/
structure SignupData where
  name : String
  email : String
  password : String
  role : String
  region : String
  specialization : String
  deriving DecidableEq, Repr

/-- What a handler does besides updating the component state. -/
inductive Effect where
  | login (email password : String) : Effect
  | signup (data : SignupData) : Effect
  | request (r : Request) : Effect
  | toastSuccess (message : String) : Effect
  | toastError (message : String) : Effect
  | toastErrorValue (shown : JsVal) : Effect
  | navigate (path : String) : Effect
  | setTimeoutEndChat (delayMs : Nat) : Effect
  | playAudio (backendUrl : String) (audioUrl : JsVal) : Effect
  | download (href filename : String) : Effect

/-- Whether the effect is a navigation. -/
def Effect.isNavigate : Effect → Bool
  | Effect.navigate _ => true
  | _ => false

/-- Whether the effect is a request to the backend. -/
def Effect.isRequest : Effect → Bool
  | Effect.request _ => true
  | _ => false

/-- Whether the effect schedules the end-chat call. -/
def Effect.isEndChat : Effect → Bool
  | Effect.setTimeoutEndChat _ => true
  | _ => false

/-- The paths a run navigated to, in order. -/
def navigations : List Effect → List String
  | [] => []
  | Effect.navigate p :: rest => p :: navigations rest
  | _ :: rest => navigations rest

/-- The requests a run sent to the backend, in order. -/
def requests : List Effect → List Request
  | [] => []
  | Effect.request r :: rest => r :: requests rest
  | _ :: rest => requests rest

/-- The value of the `Authorization` header of a request, when it has one. -/
def Request.authorization (r : Request) : Option String :=
  r.headers.lookup "Authorization"

/-- The requests a run sent, each as its method, its address and the value of
its `Authorization` header. -/
def requestLines (effects : List Effect) : List (String × String × Option String) :=
  (requests effects).map (fun r => (r.method, r.url, r.authorization))

/-- The error toasts a run showed by a call `toast.error('...')` with a literal
text, in order. -/
def errorToasts : List Effect → List String
  | [] => []
  | Effect.toastError m :: rest => m :: errorToasts rest
  | _ :: rest => errorToasts rest

/-- Every error toast a run showed, in order, each as the value that was passed
to `toast.error`: a literal text or a computed value. -/
def errorToastValues : List Effect → List JsVal
  | [] => []
  | Effect.toastError m :: rest => JsVal.str m :: errorToastValues rest
  | Effect.toastErrorValue v :: rest => v :: errorToastValues rest
  | _ :: rest => errorToastValues rest

/-! ## `pages/AuthPage.js` -/

/-- The fields of the login form. -/
structure LoginData where
  email : String
  password : String
  deriving DecidableEq, Repr

/-- The state of `AuthPage`. -/
structure AuthState where
  loading : Bool
  loginData : LoginData
  signupData : SignupData
  deriving DecidableEq, Repr

/-- The initial state of `AuthPage`. -/
def AuthState.initial : AuthState :=
  { loading := false,
    loginData := { email := "", password := "" },
    signupData := { name := "", email := "", password := "", role := "patient", region := "",
                    specialization := "" } }

/-- The expression `detail || fallback`: `detail` itself when it is truthy,
whatever its type, and the text `fallback` otherwise. -/
def orElse (detail : JsVal) (fallback : String) : JsVal :=
  if jsTruthy detail then detail else JsVal.str fallback

/-- `handleLogin` of `AuthPage`; `outcome` is how `login(email, password)`
settles. A call that resolves without a user object (`none`) makes the read
`user.role` throw after the success toast, and the `catch` block then shows the
error toast for an error that has no response. -/
def handleLogin (outcome : Outcome (Option User)) (s : AuthState) : AuthState × List Effect :=
  let s1 := { s with loading := true }
  let call := Effect.login s1.loginData.email s1.loginData.password
  let s2 := { s1 with loading := false }
  match outcome with
  | Outcome.resolved (some user) =>
    (s2, [ call, Effect.toastSuccess "Login successful!",
           if user.role == some "patient" then Effect.navigate "/patient/dashboard"
           else Effect.navigate "/doctor/dashboard" ])
  | Outcome.resolved none =>
    (s2, [ call, Effect.toastSuccess "Login successful!",
           Effect.toastErrorValue (orElse JsVal.undefined "Login failed") ])
  | Outcome.rejected error =>
    (s2, [ call, Effect.toastErrorValue (orElse error.detail "Login failed") ])

/-- `handleSignup` of `AuthPage`; `outcome` is how `signup(signupData)` settles,
read as in `handleLogin`. -/
def handleSignup (outcome : Outcome (Option User)) (s : AuthState) : AuthState × List Effect :=
  let s1 := { s with loading := true }
  let call := Effect.signup s1.signupData
  let s2 := { s1 with loading := false }
  match outcome with
  | Outcome.resolved (some user) =>
    (s2, [ call, Effect.toastSuccess "Account created successfully!",
           if user.role == some "patient" then Effect.navigate "/patient/dashboard"
           else Effect.navigate "/doctor/dashboard" ])
  | Outcome.resolved none =>
    (s2, [ call, Effect.toastSuccess "Account created successfully!",
           Effect.toastErrorValue (orElse JsVal.undefined "Signup failed") ])
  | Outcome.rejected error =>
    (s2, [ call, Effect.toastErrorValue (orElse error.detail "Signup failed") ])

/-! ## `pages/ChatbotPage.js` -/

/-- What `ChatbotPage` reads from its surroundings: the backend address
(`process.env.REACT_APP_BACKEND_URL`), the route parameter and the session
token of the auth context. -/
structure ChatEnv where
  BACKEND_URL : String
  appointmentId : String
  token : String
  deriving DecidableEq, Repr

/-- The constant `API` of the page. -/
def ChatEnv.API (env : ChatEnv) : String :=
  env.BACKEND_URL ++ "/api"

/-- The state of `ChatbotPage`. -/
structure ChatState where
  messages : List JsVal
  input : String
  loading : Bool
  isRecording : Bool

/-- The state `useState` starts the page with. -/
def ChatState.initial : ChatState :=
  { messages := [], input := "", loading := false, isRecording := false }

/-- A chat message record `{ sender, message, timestamp }`. -/
def chatMessage (sender : String) (message : JsVal) (timestamp : String) : JsVal :=
  JsVal.obj [("sender", JsVal.str sender), ("message", message),
             ("timestamp", JsVal.str timestamp)]

/-- The text of the welcome message. -/
def welcomeText : String :=
  "Hello! I\x27m your AI medical assistant. I\x27ll help collect your medical information before your consultation. Let\x27s start with your symptoms. What brings you here today?"

/-- The mount effect of the page: the message list becomes the welcome message
alone. -/
def mountEffect (now : String) (s : ChatState) : ChatState :=
  { s with messages := [chatMessage "ai" (JsVal.str welcomeText) now] }

/-- The expression `reply.message.toLowerCase()`: `none` when it throws a
`TypeError`, which it does unless `reply` is an object whose `message` is a
string. -/
def replyMessageLower (reply : JsVal) : Option String :=
  match reply with
  | JsVal.obj fields =>
    match JsObj.get fields "message" with
    | JsVal.str s => some (toLowerCase s)
    | _ => none
  | _ => none

/-- `sendMessage` of `ChatbotPage`. `now` is the time stamp taken for the
patient message; `outcome` is how the POST settles, a resolved one carrying the
object `response.data`. -/
def sendMessage (env : ChatEnv) (now : String) (text : String) (outcome : Outcome JsObj)
    (s : ChatState) : ChatState × List Effect :=
  if !truthyStr (some (trim text)) then (s, [])
  else
    let userMessage := chatMessage "patient" (JsVal.str text) now
    let s1 := { s with messages := s.messages ++ [userMessage], input := "", loading := true }
    let post := Effect.request
      { method := "POST", url := env.API ++ "/chat/message",
        body := Body.json (JsVal.obj [("appointment_id", JsVal.str env.appointmentId),
                                      ("message", JsVal.str text)]),
        headers := [("Authorization", "Bearer " ++ env.token)] }
    match outcome with
    | Outcome.resolved data =>
      let s2 := { s1 with messages := s1.messages ++ [JsObj.get data "ai_response"] }
      match replyMessageLower (JsObj.get data "ai_response") with
      | some lowered =>
        if includes lowered "generate a summary" then
          ({ s2 with loading := false }, [post, Effect.setTimeoutEndChat 2000])
        else ({ s2 with loading := false }, [post])
      | none => ({ s2 with loading := false }, [post, Effect.toastError "Failed to send message"])
    | Outcome.rejected _ =>
      ({ s1 with loading := false }, [post, Effect.toastError "Failed to send message"])

/-- `handleSubmit` of `ChatbotPage`: sends the input field. -/
def handleSubmit (env : ChatEnv) (now : String) (outcome : Outcome JsObj) (s : ChatState) :
    ChatState × List Effect :=
  sendMessage env now s.input outcome s

/-- `handleImageUpload` of `ChatbotPage`. `file` is `e.target.files[0]`, `now1`
and `now2` the time stamps of the two messages. -/
def handleImageUpload (env : ChatEnv) (now1 now2 : String) (file : Option File)
    (outcome : Outcome JsObj) (s : ChatState) : ChatState × List Effect :=
  match file with
  | none => (s, [])
  | some f =>
    let formData := [("image", FormValue.file f), ("appointment_id", FormValue.text env.appointmentId)]
    let s1 := { s with loading := true }
    let post := Effect.request
      { method := "POST", url := env.API ++ "/chat/upload", body := Body.form formData,
        headers := [("Authorization", "Bearer " ++ env.token),
                    ("Content-Type", "multipart/form-data")] }
    match outcome with
    | Outcome.resolved data =>
      let s2 := { s1 with messages := s1.messages ++
        [ chatMessage "patient" (JsVal.str ("[Image uploaded: " ++ f.name ++ "]")) now1,
          chatMessage "ai" (JsObj.get data "analysis") now2 ] }
      ({ s2 with loading := false }, [post, Effect.toastSuccess "Image uploaded and analyzed"])
    | Outcome.rejected _ =>
      ({ s1 with loading := false }, [post, Effect.toastError "Failed to upload image"])

/-- `onStop` of `ChatbotPage`, the callback of the recorder. `now1` and `now2`
are the time stamps of the two messages. -/
def onStop (env : ChatEnv) (now1 now2 : String) (recordedBlob : Blob) (outcome : Outcome JsObj)
    (s : ChatState) : ChatState × List Effect :=
  let s1 := { s with loading := true }
  let formData := [("audio", FormValue.blob recordedBlob "audio.webm"),
                   ("appointment_id", FormValue.text env.appointmentId)]
  let post := Effect.request
    { method := "POST", url := env.API ++ "/chat/voice", body := Body.form formData,
      headers := [("Authorization", "Bearer " ++ env.token),
                  ("Content-Type", "multipart/form-data")] }
  match outcome with
  | Outcome.resolved data =>
    let s2 := { s1 with messages := s1.messages ++
      [ chatMessage "patient" (JsObj.get data "transcribed_text") now1,
        chatMessage "ai" (JsObj.get data "ai_response") now2 ] }
    if jsTruthy (JsObj.get data "audio_url") then
      ({ s2 with loading := false },
       [post, Effect.playAudio env.BACKEND_URL (JsObj.get data "audio_url")])
    else ({ s2 with loading := false }, [post])
  | Outcome.rejected _ =>
    ({ s1 with loading := false }, [post, Effect.toastError "Failed to process voice input"])

/-- `handleEndChat` of `ChatbotPage`; on failure alone it clears `loading`. -/
def handleEndChat (env : ChatEnv) (outcome : Outcome JsVal) (s : ChatState) :
    ChatState × List Effect :=
  let s1 := { s with loading := true }
  let post := Effect.request
    { method := "POST", url := env.API ++ "/chat/end?appointment_id=" ++ env.appointmentId,
      body := Body.json (JsVal.obj []),
      headers := [("Authorization", "Bearer " ++ env.token)] }
  match outcome with
  | Outcome.resolved _ =>
    (s1, [post, Effect.toastSuccess "Consultation completed! Summary sent to doctor.",
          Effect.navigate "/patient/dashboard"])
  | Outcome.rejected _ =>
    ({ s1 with loading := false }, [post, Effect.toastError "Failed to end consultation"])

/-- One run of a handler that touches the message list, with its inputs. -/
inductive ChatEvent where
  | sendMessage (now text : String) (outcome : Outcome JsObj) : ChatEvent
  | handleImageUpload (now1 now2 : String) (file : Option File) (outcome : Outcome JsObj) :
      ChatEvent
  | onStop (now1 now2 : String) (recordedBlob : Blob) (outcome : Outcome JsObj) : ChatEvent

/-- The state after one handler run. -/
def ChatEvent.apply (env : ChatEnv) (s : ChatState) : ChatEvent → ChatState
  | ChatEvent.sendMessage now text outcome => (Medicure.sendMessage env now text outcome s).1
  | ChatEvent.handleImageUpload now1 now2 file outcome =>
    (Medicure.handleImageUpload env now1 now2 file outcome s).1
  | ChatEvent.onStop now1 now2 blob outcome => (Medicure.onStop env now1 now2 blob outcome s).1

/-- The state after a sequence of handler runs, oldest first. -/
def runChat (env : ChatEnv) (s : ChatState) (events : List ChatEvent) : ChatState :=
  events.foldl (ChatEvent.apply env) s

/-- Whether the message is a record whose `sender` is `patient` or `ai`. -/
def hasKnownSender (m : JsVal) : Bool :=
  match m with
  | JsVal.obj fields =>
    match JsObj.get fields "sender" with
    | JsVal.str sender => sender == "patient" || sender == "ai"
    | _ => false
  | _ => false

/-- The sender invariant of the message list. -/
def sendersKnown (s : ChatState) : Bool :=
  s.messages.all hasKnownSender

/-! ## The dashboards and the summary view: shared parts -/

/-- What a dashboard or the summary view reads from its surroundings: the
backend address and the session token of the auth context. -/
structure PageEnv where
  BACKEND_URL : String
  token : String
  deriving DecidableEq, Repr

/-- The constant `API` of a page. -/
def PageEnv.API (env : PageEnv) : String :=
  env.BACKEND_URL ++ "/api"

/-- A GET request with the bearer header, as every fetch of these pages sends
it. -/
def PageEnv.get (env : PageEnv) (path : String) : Request :=
  { method := "GET", url := env.API ++ path, body := Body.empty,
    headers := [("Authorization", "Bearer " ++ env.token)] }

/-- Property read `v.key` on a value that is neither `null` nor `undefined`,
for a key that is not a built-in property: the field of an object, `undefined`
on everything else. -/
def JsVal.prop (v : JsVal) (key : String) : JsVal :=
  match v with
  | JsVal.obj fields => JsObj.get fields key
  | _ => JsVal.undefined

/-- Whether the value is `null` or `undefined`. -/
def JsVal.isNullish : JsVal → Bool
  | JsVal.undefined => true
  | JsVal.null => true
  | _ => false

/-! ## `pages/PatientDashboard.js` -/

/-- The state of `PatientDashboard`. `doctors` and `appointments` hold whatever
`response.data` was; `bookingDoctor` is `none` for `null`. -/
structure PatientState where
  doctors : JsVal
  appointments : JsVal
  loading : Bool
  bookingDoctor : Option JsObj
  slot : String

/-- The state `useState` starts the page with. -/
def PatientState.initial : PatientState :=
  { doctors := JsVal.arr [], appointments := JsVal.arr [], loading := true,
    bookingDoctor := none, slot := "" }

/-- `fetchDoctors` of `PatientDashboard`. -/
def PatientDashboard.fetchDoctors (env : PageEnv) (outcome : Outcome JsVal) (s : PatientState) :
    PatientState × List Effect :=
  let get := Effect.request (env.get "/patient/doctors")
  match outcome with
  | Outcome.resolved data =>
    ({ s with doctors := data, loading := false }, [get])
  | Outcome.rejected _ =>
    ({ s with loading := false }, [get, Effect.toastError "Failed to load doctors"])

/-- `fetchAppointments` of `PatientDashboard`. -/
def PatientDashboard.fetchAppointments (env : PageEnv) (outcome : Outcome JsVal)
    (s : PatientState) : PatientState × List Effect :=
  let get := Effect.request (env.get "/patient/appointments")
  match outcome with
  | Outcome.resolved data => ({ s with appointments := data }, [get])
  | Outcome.rejected _ => (s, [get, Effect.toastError "Failed to load appointments"])

/-- `handleBookAppointment` of `PatientDashboard`. `postOutcome` is how the POST
to `/patient/book` settles and `fetchOutcome` how the GET of the
`fetchAppointments()` it then starts settles. With no doctor selected the read
`bookingDoctor.user_id` throws before any request is made. -/
def PatientDashboard.handleBookAppointment (env : PageEnv) (postOutcome fetchOutcome : Outcome JsVal)
    (s : PatientState) : PatientState × List Effect :=
  match s.bookingDoctor with
  | none => (s, [Effect.toastError "Failed to book appointment"])
  | some doctor =>
    let post := Effect.request
      { method := "POST", url := env.API ++ "/patient/book",
        body := Body.json (JsVal.obj [("doctor_id", JsObj.get doctor "user_id"),
                                      ("slot", JsVal.str s.slot)]),
        headers := [("Authorization", "Bearer " ++ env.token)] }
    match postOutcome with
    | Outcome.resolved _ =>
      let s1 := { s with bookingDoctor := none, slot := "" }
      let fetched := PatientDashboard.fetchAppointments env fetchOutcome s1
      (fetched.1, [post, Effect.toastSuccess "Appointment booked successfully!"] ++ fetched.2)
    | Outcome.rejected _ => (s, [post, Effect.toastError "Failed to book appointment"])

/-! ## `pages/DoctorDashboard.js` -/

/-- The state of `DoctorDashboard`. -/
structure DoctorState where
  appointments : JsVal
  loading : Bool
  searchTerm : String

/-- The state `useState` starts the page with. -/
def DoctorState.initial : DoctorState :=
  { appointments := JsVal.arr [], loading := true, searchTerm := "" }

/-- `fetchAppointments` of `DoctorDashboard`. -/
def DoctorDashboard.fetchAppointments (env : PageEnv) (outcome : Outcome JsVal)
    (s : DoctorState) : DoctorState × List Effect :=
  let get := Effect.request (env.get "/doctor/appointments")
  match outcome with
  | Outcome.resolved data => ({ s with appointments := data, loading := false }, [get])
  | Outcome.rejected _ =>
    ({ s with loading := false }, [get, Effect.toastError "Failed to load appointments"])

/-- The callback of the filter,
`apt.patient?.name?.toLowerCase().includes(searchTerm.toLowerCase())`, read for
truthiness: `none` when it throws a `TypeError` (the appointment is `null` or
`undefined`, or the name is present and not a string); an optional chain that
stops at a missing patient or name gives `undefined`, which is falsy. The
built-in `String.prototype.toLowerCase` is the parameter `lower`. -/
def matchesSearch (lower : String → String) (searchTerm : String) (apt : JsVal) :
    Option Bool :=
  match apt with
  | JsVal.undefined => none
  | JsVal.null => none
  | JsVal.obj fields =>
    match JsObj.get fields "patient" with
    | JsVal.obj patient =>
      match JsObj.get patient "name" with
      | JsVal.undefined => some false
      | JsVal.null => some false
      | JsVal.str name => some (includes (lower name) (lower searchTerm))
      | _ => none
    | _ => some false
  | _ => some false

/-- The method `Array.prototype.filter` with a callback that may throw: `none`
when the callback throws on some element. -/
def filterThrowing {α : Type} (keep : α → Option Bool) : List α → Option (List α)
  | [] => some []
  | x :: xs =>
    match keep x with
    | none => none
    | some k =>
      match filterThrowing keep xs with
      | none => none
      | some rest => some (if k then x :: rest else rest)

/-- The constant `filteredAppointments` of `DoctorDashboard`: `none` when its
evaluation throws, which it also does when `appointments` is not an array. The
built-in `String.prototype.toLowerCase` is the parameter `lower`. -/
def filteredAppointments (lower : String → String) (appointments : JsVal)
    (searchTerm : String) : Option (List JsVal) :=
  match appointments with
  | JsVal.arr items => filterThrowing (matchesSearch lower searchTerm) items
  | _ => none

/-- The heading of an appointment card, `apt.patient?.name || 'Unknown Patient'`,
for an appointment that is neither `null` nor `undefined`. -/
def patientHeading (apt : JsVal) : JsVal :=
  let patient := apt.prop "patient"
  let name := if patient.isNullish then JsVal.undefined else patient.prop "name"
  if jsTruthy name then name else JsVal.str "Unknown Patient"

/-- The name of the patient of an appointment record, when the record has a
patient with a name that is a string. -/
def patientName (apt : JsVal) : Option String :=
  match apt.prop "patient" with
  | JsVal.obj patient =>
    match JsObj.get patient "name" with
    | JsVal.str name => some name
    | _ => none
  | _ => none

/-- An appointment record as the backend sends it: an object whose patient,
when it is an object, has a name that is a string or is missing. -/
def isAppointment (apt : JsVal) : Bool :=
  match apt with
  | JsVal.obj fields =>
    match JsObj.get fields "patient" with
    | JsVal.obj patient =>
      match JsObj.get patient "name" with
      | JsVal.undefined => true
      | JsVal.null => true
      | JsVal.str _ => true
      | _ => false
    | _ => true
  | _ => false

/-- The filter as the specification words it: the appointment has a patient
name and the name contains the search term as a contiguous run of characters,
both lower-cased by `lower`. -/
def nameContains (lower : String → String) (searchTerm : String) (apt : JsVal) : Bool :=
  match patientName apt with
  | some name => decide ((lower searchTerm).data <:+: (lower name).data)
  | none => false

/-! ## `pages/SummaryView.js` -/

/-- The state of `SummaryView`; `summary` is `null` until a fetch stores
`response.data`. -/
structure SummaryState where
  summary : JsVal
  loading : Bool

/-- The state `useState` starts the page with. -/
def SummaryState.initial : SummaryState :=
  { summary := JsVal.null, loading := true }

/-- `fetchSummary` of `SummaryView`, for the route parameter `summaryId`. -/
def fetchSummary (env : PageEnv) (summaryId : String) (outcome : Outcome JsVal)
    (s : SummaryState) : SummaryState × List Effect :=
  let get := Effect.request (env.get ("/doctor/summary/" ++ summaryId))
  match outcome with
  | Outcome.resolved data => ({ s with summary := data, loading := false }, [get])
  | Outcome.rejected _ =>
    ({ s with loading := false }, [get, Effect.toastError "Failed to load summary"])

/-- `handleExport` of `SummaryView`. The built-ins `JSON.stringify(·, null, 2)`
and `encodeURIComponent` are parameters; the click on the link that the handler
builds is the `download` effect. -/
def handleExport (stringify : JsVal → String) (encodeURIComponent : String → String)
    (summaryId : String) (s : SummaryState) : SummaryState × List Effect :=
  let dataStr := stringify s.summary
  let dataUri := "data:application/json;charset=utf-8," ++ encodeURIComponent dataStr
  let exportFileDefaultName := "patient-summary-" ++ summaryId ++ ".json"
  (s, [Effect.download dataUri exportFileDefaultName, Effect.toastSuccess "Summary exported"])

mutual
/-- Whether React renders the value as a child: a text, a number, a boolean,
`null` and `undefined` are rendered (the last three as nothing) and so is a
list of such children, while an object makes the render throw `Objects are not
valid as a React child`. -/
def validChild : JsVal → Bool
  | JsVal.obj _ => false
  | JsVal.arr items => validChildren items
  | _ => true
/-- Whether React renders every value of the list as a child. -/
def validChildren : List JsVal → Bool
  | [] => true
  | child :: rest => validChild child && validChildren rest
end

/-- What the symptoms section shows: one badge per symptom, each with its
child, or the line `No symptoms recorded`. -/
inductive SymptomsSection where
  | badges (children : List JsVal) : SymptomsSection
  | noSymptoms : SymptomsSection

/-- The symptoms section of `SummaryView` for a summary that passed the
`!summary` check: `summaryData = summary.summary_json || {}`, then
`(summaryData.symptoms || []).length > 0 ? summaryData.symptoms.map(..) : ..`.
The result is `none` when the render throws (a non-empty string or an object
with a positive `length` has no `map` to call; a symptom that React cannot
render as the child of its badge) and for an object whose own `length` is
present and not a number, a comparison this embedding leaves out. -/
def symptomsSection (summary : JsVal) : Option SymptomsSection :=
  let summaryJson := summary.prop "summary_json"
  let summaryData := if jsTruthy summaryJson then summaryJson else JsVal.obj []
  let symptoms := summaryData.prop "symptoms"
  match (if jsTruthy symptoms then symptoms else JsVal.arr []) with
  | JsVal.arr items =>
    if items.length > 0 then
      if validChildren items then some (SymptomsSection.badges items) else none
    else some SymptomsSection.noSymptoms
  | JsVal.str _ => none
  | JsVal.obj fields =>
    match JsObj.get fields "length" with
    | JsVal.undefined => some SymptomsSection.noSymptoms
    | JsVal.num n => if n > 0 then none else some SymptomsSection.noSymptoms
    | _ => none
  | _ => some SymptomsSection.noSymptoms

/-! ## The signup form, the screens of the summary view, redirects and counters -/

/-- One edit of the signup form: a change of an input or of the role select,
with the new value. -/
inductive SignupEdit where
  | name (value : String) : SignupEdit
  | email (value : String) : SignupEdit
  | password (value : String) : SignupEdit
  | role (value : String) : SignupEdit
  | region (value : String) : SignupEdit
  | specialization (value : String) : SignupEdit
  deriving DecidableEq, Repr

/-- The `onChange` / `onValueChange` handler of the edited control:
`setSignupData({ ...signupData, field: value })`. The specialization input is
rendered only while `signupData.role === 'doctor'`, so its edit does nothing in
any other state. -/
def SignupEdit.apply (s : AuthState) : SignupEdit → AuthState
  | SignupEdit.name v => { s with signupData := { s.signupData with name := v } }
  | SignupEdit.email v => { s with signupData := { s.signupData with email := v } }
  | SignupEdit.password v => { s with signupData := { s.signupData with password := v } }
  | SignupEdit.role v => { s with signupData := { s.signupData with role := v } }
  | SignupEdit.region v => { s with signupData := { s.signupData with region := v } }
  | SignupEdit.specialization v =>
    if s.signupData.role == "doctor" then
      { s with signupData := { s.signupData with specialization := v } }
    else s

/-- The state of the page after a sequence of edits of the signup form, oldest
first. -/
def editSignup (s : AuthState) (edits : List SignupEdit) : AuthState :=
  edits.foldl SignupEdit.apply s

/-- The data a run of `handleSignup` passed to `signup`, when it called it. -/
def signupCalls : List Effect → List SignupData
  | [] => []
  | Effect.signup data :: rest => data :: signupCalls rest
  | _ :: rest => signupCalls rest

/-- What `SummaryView` returns: the loading line, the line `Summary not found`,
or the summary page, which carries the export button. -/
inductive SummaryScreen where
  | loading : SummaryScreen
  | notFound : SummaryScreen
  | summary (shown : JsVal) : SummaryScreen

/-- The render of `SummaryView`: `if (loading) ..; if (!summary) ..;` and then
the page for `summary`. -/
def SummaryView (s : SummaryState) : SummaryScreen :=
  if s.loading then SummaryScreen.loading
  else if !jsTruthy s.summary then SummaryScreen.notFound
  else SummaryScreen.summary s.summary

/-- Whether the render contains the export button. -/
def exportOffered (s : SummaryState) : Bool :=
  match SummaryView s with
  | SummaryScreen.summary _ => true
  | _ => false

/-- One value of the route parameter `summaryId` together with how the fetch
that the effect `useEffect(.., [summaryId])` starts for it settles. -/
abbrev SummaryVisit := String × Outcome JsVal

/-- The state after the mount and the later changes of the route parameter:
the effect runs `fetchSummary` once for each value, oldest first. -/
def visitSummaries (env : PageEnv) (visits : List SummaryVisit) : SummaryState :=
  visits.foldl (fun s visit => (fetchSummary env visit.1 visit.2 s).1) SummaryState.initial

/-- Following the redirects that the route table issues from `path`, at most
`fuel` of them: the page reached, `none` when the table has no such route or
the redirects are not exhausted. -/
def followRedirects (user : Option User) : Nat → String → Option Page
  | fuel, path =>
    match App user path with
    | none => none
    | some (Rendered.children page) => some page
    | some (Rendered.navigate target) =>
      match fuel with
      | 0 => none
      | n + 1 => followRedirects user n target

/-- The handler `onChange` of the search input: `setSearchTerm(e.target.value)`. -/
def setSearchTerm (value : String) (s : DoctorState) : DoctorState :=
  { s with searchTerm := value }

/-- The callback `(a) => a.summary`, read for truthiness; `none` when `a` is
`null` or `undefined` and the read throws. -/
def hasSummary (a : JsVal) : Option Bool :=
  if a.isNullish then none else some (jsTruthy (a.prop "summary"))

/-- The callback `(a) => a.status === 'booked'`; `none` when the read throws. -/
def isBooked (a : JsVal) : Option Bool :=
  if a.isNullish then none
  else
    match a.prop "status" with
    | JsVal.str status => some (status == "booked")
    | _ => some false

/-- The three counters of `DoctorDashboard`, as its render computes them from
the state: `appointments.length`, `appointments.filter((a) => a.summary).length`
and `appointments.filter((a) => a.status === 'booked').length`; `none` when the
evaluation throws. -/
def counters (s : DoctorState) : Option (Nat × Nat × Nat) :=
  match s.appointments with
  | JsVal.arr items =>
    match filterThrowing hasSummary items, filterThrowing isBooked items with
    | some pending, some active => some (items.length, pending.length, active.length)
    | _, _ => none
  | _ => none

/-! ## Auxiliary lemmas -/

theorem truthyStr_some (s : String) : truthyStr (some s) = true ↔ s ≠ "" := by
  cases s with
  | mk data =>
    cases data with
    | nil => simp [truthyStr]
    | cons c cs =>
      simp [truthyStr]
      intro h
      exact absurd (congrArg String.data h) (by simp)

theorem truthyStr_eq_false (role : Option String) :
    truthyStr role = false ↔ role = none ∨ role = some "" := by
  cases role with
  | none => simp [truthyStr]
  | some r =>
    have h := truthyStr_some r
    by_cases hr : r = ""
    · subst hr; simp [truthyStr]
    · simp [hr, h.mpr hr]

/-! ## The route guard -/

/-- C1: `ProtectedRoute` renders its children if and only if a user is present
and either no role is required (the `role` prop is not given, or is the empty
string, which JavaScript reads as not given) or `user.role` equals the required
role; for every combination of user and role it renders either the children or
a redirect, so every other combination gives a redirect and not the children. -/
theorem protectedRoute_children_iff {α : Type} (user : Option User) (role : Option String)
    (children : α) :
    (ProtectedRoute user role children = Rendered.children children ↔
      ∃ u, user = some u ∧ (role = none ∨ role = some "" ∨ u.role = role)) ∧
    (ProtectedRoute user role children = Rendered.children children ∨
      ∃ target, ProtectedRoute user role children = Rendered.navigate target) := by
  cases user with
  | none => simp [ProtectedRoute]
  | some u =>
    by_cases ht : truthyStr role = true
    · have hne : ¬ (role = none ∨ role = some "") := by
        rw [← truthyStr_eq_false]; simp [ht]
      by_cases hr : u.role = role
      · simp [ProtectedRoute, ht, hr]
      · simp [ProtectedRoute, ht, hr]
        exact not_or.mp hne
    · have hf : truthyStr role = false := by simpa using ht
      have hno := (truthyStr_eq_false role).mp hf
      simp only [ProtectedRoute, hf, Bool.false_and]
      simp
      rcases hno with h | h
      · exact Or.inl h
      · exact Or.inr (Or.inl h)

/-- C2: the redirect of `ProtectedRoute` goes to `/auth` whenever there is no
user, whatever the role prop, and to `/` whenever a user is present whose role
differs from the required role; a visitor without a user is never sent to `/`
and a user who is present is never sent to `/auth`. -/
theorem protectedRoute_redirect_target {α : Type} (role : Option String) (children : α) :
    ProtectedRoute none role children = Rendered.navigate "/auth" ∧
    (∀ (u : User) (r : String), r ≠ "" → u.role ≠ some r →
      ProtectedRoute (some u) (some r) children = Rendered.navigate "/") ∧
    ProtectedRoute none role children ≠ Rendered.navigate "/" ∧
    (∀ u : User, ProtectedRoute (some u) role children ≠ Rendered.navigate "/auth") := by
  refine ⟨rfl, ?_, ?_, ?_⟩
  · intro u r hr hne
    have ht : truthyStr (some r) = true := (truthyStr_some r).mpr hr
    simp [ProtectedRoute, ht, hne]
  · simp [ProtectedRoute]
  · intro u
    unfold ProtectedRoute
    simp only
    split
    · simp
    · simp

/-- Witness of C2: a doctor asking for a patient route is sent to `/`. -/
theorem protectedRoute_redirect_target_witness :
    ProtectedRoute (some ⟨some "doctor", none⟩) (some "patient") Page.PatientDashboard =
      Rendered.navigate "/" :=
  (protectedRoute_redirect_target (some "patient") Page.PatientDashboard).2.1
    ⟨some "doctor", none⟩ "patient" (by decide) (by decide)

/-! ## The route table -/

theorem protectedRoute_some_iff {α : Type} (user : Option User) (r : String) (hr : r ≠ "")
    (page : α) :
    ProtectedRoute user (some r) page = Rendered.children page ↔
      ∃ u, user = some u ∧ u.role = some r := by
  have ht : truthyStr (some r) = true := (truthyStr_some r).mpr hr
  cases user with
  | none => simp [ProtectedRoute]
  | some u =>
    by_cases h : u.role = some r
    · simp [ProtectedRoute, ht, h]
    · simp [ProtectedRoute, ht, h]

theorem protectedRoute_children_inj {α : Type} (user : Option User) (role : Option String)
    (page other : α) (h : ProtectedRoute user role page = Rendered.children other) :
    other = page := by
  unfold ProtectedRoute at h
  cases user with
  | none => simp at h
  | some u =>
    simp only at h
    split at h
    · simp at h
    · simpa using h.symm

/-- C3: in the route table of `App`, for every user state, `PatientDashboard`
and `ChatbotPage` are rendered exactly on their own routes and only when the
role of the user is `patient`, `DoctorDashboard` and `SummaryView` exactly on
their own routes and only when the role of the user is `doctor`, and
`LandingPage` (`/`) and `AuthPage` (`/auth`) are rendered for every user state,
no user included. -/
theorem app_routes_by_role (user : Option User) :
    (∀ path, App user path = some (Rendered.children Page.PatientDashboard) ↔
      path = "/patient/dashboard" ∧ ∃ u, user = some u ∧ u.role = some "patient") ∧
    (∀ path, App user path = some (Rendered.children Page.ChatbotPage) ↔
      path = "/patient/chat/:appointmentId" ∧ ∃ u, user = some u ∧ u.role = some "patient") ∧
    (∀ path, App user path = some (Rendered.children Page.DoctorDashboard) ↔
      path = "/doctor/dashboard" ∧ ∃ u, user = some u ∧ u.role = some "doctor") ∧
    (∀ path, App user path = some (Rendered.children Page.SummaryView) ↔
      path = "/doctor/summary/:summaryId" ∧ ∃ u, user = some u ∧ u.role = some "doctor") ∧
    App user "/" = some (Rendered.children Page.LandingPage) ∧
    App user "/auth" = some (Rendered.children Page.AuthPage) := by
  have hp : ("patient" : String) ≠ "" := by decide
  have hd : ("doctor" : String) ≠ "" := by decide
  have key : ∀ (path : String) (page : Page),
      App user path = some (Rendered.children page) ↔
        (path = "/" ∧ page = Page.LandingPage) ∨
        (path = "/auth" ∧ page = Page.AuthPage) ∨
        (path = "/patient/dashboard" ∧ page = Page.PatientDashboard ∧
          ∃ u, user = some u ∧ u.role = some "patient") ∨
        (path = "/patient/chat/:appointmentId" ∧ page = Page.ChatbotPage ∧
          ∃ u, user = some u ∧ u.role = some "patient") ∨
        (path = "/doctor/dashboard" ∧ page = Page.DoctorDashboard ∧
          ∃ u, user = some u ∧ u.role = some "doctor") ∨
        (path = "/doctor/summary/:summaryId" ∧ page = Page.SummaryView ∧
          ∃ u, user = some u ∧ u.role = some "doctor") := by
    intro path page
    have e1 := protectedRoute_some_iff user "patient" hp Page.PatientDashboard
    have e2 := protectedRoute_some_iff user "patient" hp Page.ChatbotPage
    have e3 := protectedRoute_some_iff user "doctor" hd Page.DoctorDashboard
    have e4 := protectedRoute_some_iff user "doctor" hd Page.SummaryView
    by_cases h1 : path = "/"
    · subst h1
      have : App user "/" = some (Rendered.children Page.LandingPage) := rfl
      rw [this]; simp; exact eq_comm
    by_cases h2 : path = "/auth"
    · subst h2
      have : App user "/auth" = some (Rendered.children Page.AuthPage) := rfl
      rw [this]; simp; exact eq_comm
    by_cases h3 : path = "/patient/dashboard"
    · subst h3
      have : App user "/patient/dashboard" =
          some (ProtectedRoute user (some "patient") Page.PatientDashboard) := rfl
      rw [this]; simp
      constructor
      · intro h
        have hpg := protectedRoute_children_inj _ _ _ _ h
        subst hpg
        exact ⟨rfl, e1.mp h⟩
      · rintro ⟨hpg, hu⟩
        subst hpg
        exact e1.mpr hu
    by_cases h4 : path = "/patient/chat/:appointmentId"
    · subst h4
      have : App user "/patient/chat/:appointmentId" =
          some (ProtectedRoute user (some "patient") Page.ChatbotPage) := rfl
      rw [this]; simp
      constructor
      · intro h
        have hpg := protectedRoute_children_inj _ _ _ _ h
        subst hpg
        exact ⟨rfl, e2.mp h⟩
      · rintro ⟨hpg, hu⟩
        subst hpg
        exact e2.mpr hu
    by_cases h5 : path = "/doctor/dashboard"
    · subst h5
      have : App user "/doctor/dashboard" =
          some (ProtectedRoute user (some "doctor") Page.DoctorDashboard) := rfl
      rw [this]; simp
      constructor
      · intro h
        have hpg := protectedRoute_children_inj _ _ _ _ h
        subst hpg
        exact ⟨rfl, e3.mp h⟩
      · rintro ⟨hpg, hu⟩
        subst hpg
        exact e3.mpr hu
    by_cases h6 : path = "/doctor/summary/:summaryId"
    · subst h6
      have : App user "/doctor/summary/:summaryId" =
          some (ProtectedRoute user (some "doctor") Page.SummaryView) := rfl
      rw [this]; simp
      constructor
      · intro h
        have hpg := protectedRoute_children_inj _ _ _ _ h
        subst hpg
        exact ⟨rfl, e4.mp h⟩
      · rintro ⟨hpg, hu⟩
        subst hpg
        exact e4.mpr hu
    have hnone : App user path = none := by
      have b1 : (path == "/") = false := by simpa using h1
      have b2 : (path == "/auth") = false := by simpa using h2
      have b3 : (path == "/patient/dashboard") = false := by simpa using h3
      have b4 : (path == "/patient/chat/:appointmentId") = false := by simpa using h4
      have b5 : (path == "/doctor/dashboard") = false := by simpa using h5
      have b6 : (path == "/doctor/summary/:summaryId") = false := by simpa using h6
      simp [App, routes, List.lookup, b1, b2, b3, b4, b5, b6]
    rw [hnone]
    simp [h1, h2, h3, h4, h5, h6]
  refine ⟨?_, ?_, ?_, ?_, ?_, ?_⟩
  · intro path; rw [key]; simp
  · intro path; rw [key]; simp
  · intro path; rw [key]; simp
  · intro path; rw [key]; simp
  · rfl
  · rfl

/-! ## The auth handlers -/

/-- C4: `handleLogin` and `handleSignup` redirect by role on success: for a
returned user with role `patient` they navigate to `/patient/dashboard`, for a
user with any other role to `/doctor/dashboard`, and this is their only
navigation; when the auth call fails they do not navigate at all. -/
theorem auth_handlers_redirect_by_role (s : AuthState) (user : User) (error : RequestError) :
    navigations (handleLogin (Outcome.resolved (some user)) s).2 =
      [if user.role = some "patient" then "/patient/dashboard" else "/doctor/dashboard"] ∧
    navigations (handleSignup (Outcome.resolved (some user)) s).2 =
      [if user.role = some "patient" then "/patient/dashboard" else "/doctor/dashboard"] ∧
    navigations (handleLogin (Outcome.rejected error) s).2 = [] ∧
    navigations (handleSignup (Outcome.rejected error) s).2 = [] := by
  refine ⟨?_, ?_, rfl, rfl⟩
  · by_cases h : user.role = some "patient"
    · simp [handleLogin, navigations, h]
    · simp [handleLogin, navigations, h]
  · by_cases h : user.role = some "patient"
    · simp [handleSignup, navigations, h]
    · simp [handleSignup, navigations, h]

/-! ## Blank texts -/

theorem dropWhile_eq_nil_iff_all {α : Type} (p : α → Bool) (l : List α) :
    l.dropWhile p = [] ↔ ∀ x ∈ l, p x = true := by
  induction l with
  | nil => simp
  | cons x xs ih =>
    by_cases hx : p x = true
    · simp [List.dropWhile, hx, ih]
    · simp [List.dropWhile, hx]

theorem dropWhile_append_singleton_ne_nil {α : Type} (p : α → Bool) (l : List α) (x : α)
    (hx : p x = false) : (l ++ [x]).dropWhile p ≠ [] := by
  intro h
  have hall := (dropWhile_eq_nil_iff_all p (l ++ [x])).mp h x (by simp)
  simp [hx] at hall

/-- The method `trim` gives the empty string exactly on the texts that are
empty or consist of white space only. -/
theorem trim_eq_empty_iff (text : String) :
    trim text = "" ↔ ∀ c ∈ text.data, isJsWhitespace c = true := by
  rw [← dropWhile_eq_nil_iff_all]
  unfold trim
  constructor
  · intro h
    have h1 : ((text.data.dropWhile isJsWhitespace).reverse.dropWhile isJsWhitespace).reverse
        = [] := congrArg String.data h
    rw [List.reverse_eq_nil_iff] at h1
    cases hd : text.data.dropWhile isJsWhitespace with
    | nil => rfl
    | cons x xs =>
      exfalso
      have hx : isJsWhitespace x = false := by
        have := List.head_dropWhile_not isJsWhitespace text.data (by simp [hd])
        simpa [hd] using this
      rw [hd, List.reverse_cons] at h1
      exact dropWhile_append_singleton_ne_nil isJsWhitespace xs.reverse x hx h1
  · intro h
    rw [h]
    rfl

theorem truthy_trim_of_not_blank (text : String)
    (h : ∃ c ∈ text.data, isJsWhitespace c = false) : truthyStr (some (trim text)) = true := by
  rw [truthyStr_some]
  intro he
  obtain ⟨c, hc, hw⟩ := h
  have := (trim_eq_empty_iff text).mp he c hc
  simp [hw] at this

/-! ## The text handler of the chat page -/

/-- C5: for every message list and every text that is not blank, when the POST
to `/chat/message` succeeds with reply `r` (the `ai_response` of the response
data), `sendMessage` leaves the message list equal to the previous list followed
by the patient message for `text` and then `r`, in that order, with nothing else
added. -/
theorem sendMessage_success_messages (env : ChatEnv) (now text : String) (data : JsObj)
    (s : ChatState) (hText : ∃ c ∈ text.data, isJsWhitespace c = false) :
    (sendMessage env now text (Outcome.resolved data) s).1.messages =
      s.messages ++ [chatMessage "patient" (JsVal.str text) now, JsObj.get data "ai_response"] := by
  have ht := truthy_trim_of_not_blank text hText
  unfold sendMessage
  simp only [ht, Bool.not_true, Bool.false_eq_true, if_false]
  split
  · split <;> simp
  · simp

/-- Witness of C5: one exchange after the welcome message. -/
theorem sendMessage_success_messages_witness :
    (sendMessage ⟨"http://localhost:8000", "apt-1", "tok"⟩ "t1" "I have a headache"
        (Outcome.resolved [("ai_response", chatMessage "ai" (JsVal.str "Since when?") "t2")])
        (mountEffect "t0" ChatState.initial)).1.messages =
      [ chatMessage "ai" (JsVal.str welcomeText) "t0",
        chatMessage "patient" (JsVal.str "I have a headache") "t1",
        chatMessage "ai" (JsVal.str "Since when?") "t2" ] :=
  sendMessage_success_messages ⟨"http://localhost:8000", "apt-1", "tok"⟩ "t1" "I have a headache"
    [("ai_response", chatMessage "ai" (JsVal.str "Since when?") "t2")]
    (mountEffect "t0" ChatState.initial) ⟨'I', by decide, by decide⟩

/-- C6: after a successful `sendMessage` (the text is not blank, the POST
succeeds and the reply is a message object with a text), the end-chat call is
scheduled if and only if the message of the reply, lower-cased, contains the
substring `generate a summary`; the decision reads the message only through its
lower-casing, so the match does not depend on letter case, and a reply without
the substring never ends the chat. -/
theorem sendMessage_endChat_iff (env : ChatEnv) (now text : String) (data : JsObj)
    (s : ChatState) (fields : JsObj) (msg : String)
    (hText : ∃ c ∈ text.data, isJsWhitespace c = false)
    (hReply : JsObj.get data "ai_response" = JsVal.obj fields)
    (hMsg : JsObj.get fields "message" = JsVal.str msg) :
    ((sendMessage env now text (Outcome.resolved data) s).2.any Effect.isEndChat = true ↔
      includes (toLowerCase msg) "generate a summary" = true) ∧
    (includes (toLowerCase msg) "generate a summary" = true →
      (sendMessage env now text (Outcome.resolved data) s).2.getLast? =
        some (Effect.setTimeoutEndChat 2000)) := by
  have ht := truthy_trim_of_not_blank text hText
  have hl : replyMessageLower (JsObj.get data "ai_response") = some (toLowerCase msg) := by
    simp [replyMessageLower, hReply, hMsg]
  unfold sendMessage
  simp only [ht, Bool.not_true, Bool.false_eq_true, if_false, hl]
  by_cases hi : includes (toLowerCase msg) "generate a summary" = true
  · simp [hi, Effect.isEndChat]
  · simp [hi, Effect.isEndChat]

/-- Witness of C6: a reply in mixed case schedules the end-chat call. -/
theorem sendMessage_endChat_iff_witness :
    (sendMessage ⟨"http://localhost:8000", "apt-1", "tok"⟩ "t1" "no, that is all"
        (Outcome.resolved
          [("ai_response", JsVal.obj [("sender", JsVal.str "ai"),
              ("message", JsVal.str "Thank you. I will now Generate A Summary.")])])
        (mountEffect "t0" ChatState.initial)).2.any Effect.isEndChat = true :=
  ((sendMessage_endChat_iff ⟨"http://localhost:8000", "apt-1", "tok"⟩ "t1" "no, that is all"
    [("ai_response", JsVal.obj [("sender", JsVal.str "ai"),
        ("message", JsVal.str "Thank you. I will now Generate A Summary.")])]
    (mountEffect "t0" ChatState.initial)
    [("sender", JsVal.str "ai"), ("message", JsVal.str "Thank you. I will now Generate A Summary.")]
    "Thank you. I will now Generate A Summary."
    ⟨'n', by decide, by decide⟩ rfl rfl).1).mpr (by decide)

/-- C7, evaluated on the code: the voice handler appends an AI reply that
contains `generate a summary` and schedules no end-chat call, and so does the
image handler, while the text handler schedules it for the same reply text. -/
theorem onStop_summary_reply_no_endChat :
    (onStop ⟨"http://localhost:8000", "apt-1", "tok"⟩ "t1" "t2" ⟨0⟩
        (Outcome.resolved [("transcribed_text", JsVal.str "no, that is all"),
          ("ai_response", JsVal.str "Thank you. I will now generate a summary.")])
        (mountEffect "t0" ChatState.initial)).1.messages =
      [ chatMessage "ai" (JsVal.str welcomeText) "t0",
        chatMessage "patient" (JsVal.str "no, that is all") "t1",
        chatMessage "ai" (JsVal.str "Thank you. I will now generate a summary.") "t2" ] ∧
    (onStop ⟨"http://localhost:8000", "apt-1", "tok"⟩ "t1" "t2" ⟨0⟩
        (Outcome.resolved [("transcribed_text", JsVal.str "no, that is all"),
          ("ai_response", JsVal.str "Thank you. I will now generate a summary.")])
        (mountEffect "t0" ChatState.initial)).2.any Effect.isEndChat = false ∧
    (handleImageUpload ⟨"http://localhost:8000", "apt-1", "tok"⟩ "t1" "t2" (some ⟨"rash.png"⟩)
        (Outcome.resolved [("analysis", JsVal.str "Thank you. I will now generate a summary.")])
        (mountEffect "t0" ChatState.initial)).2.any Effect.isEndChat = false ∧
    (sendMessage ⟨"http://localhost:8000", "apt-1", "tok"⟩ "t1" "no, that is all"
        (Outcome.resolved [("ai_response",
          chatMessage "ai" (JsVal.str "Thank you. I will now generate a summary.") "t2")])
        (mountEffect "t0" ChatState.initial)).2.any Effect.isEndChat = true := by
  refine ⟨rfl, rfl, rfl, ?_⟩
  decide

/-- C8: for every message list and every text that is not blank, when the POST
to `/chat/message` fails, `sendMessage` leaves the message list equal to the
previous list followed by the optimistic patient message only, shows the toast
`Failed to send message` and no other error toast, and does not schedule the
end-chat call. -/
theorem sendMessage_failure (env : ChatEnv) (now text : String) (error : RequestError)
    (s : ChatState) (hText : ∃ c ∈ text.data, isJsWhitespace c = false) :
    (sendMessage env now text (Outcome.rejected error) s).1.messages =
      s.messages ++ [chatMessage "patient" (JsVal.str text) now] ∧
    errorToasts (sendMessage env now text (Outcome.rejected error) s).2 =
      ["Failed to send message"] ∧
    (sendMessage env now text (Outcome.rejected error) s).2.any Effect.isEndChat = false := by
  have ht := truthy_trim_of_not_blank text hText
  unfold sendMessage
  simp only [ht, Bool.not_true, Bool.false_eq_true, if_false]
  simp [errorToasts, Effect.isEndChat]

/-- Witness of C8: a failed send after the welcome message. -/
theorem sendMessage_failure_witness :
    (sendMessage ⟨"http://localhost:8000", "apt-1", "tok"⟩ "t1" "I have a headache"
        (Outcome.rejected ⟨none⟩) (mountEffect "t0" ChatState.initial)).1.messages =
      [ chatMessage "ai" (JsVal.str welcomeText) "t0",
        chatMessage "patient" (JsVal.str "I have a headache") "t1" ] :=
  (sendMessage_failure ⟨"http://localhost:8000", "apt-1", "tok"⟩ "t1" "I have a headache" ⟨none⟩
    (mountEffect "t0" ChatState.initial) ⟨'I', by decide, by decide⟩).1

/-! ## The message list is append-only -/

theorem sendMessage_messages_extend (env : ChatEnv) (now text : String) (outcome : Outcome JsObj)
    (s : ChatState) : s.messages <+: (sendMessage env now text outcome s).1.messages := by
  unfold sendMessage
  split
  · exact List.prefix_refl _
  · cases outcome with
    | resolved data =>
      simp only
      split
      · split <;> simp [List.append_assoc]
      · simp [List.append_assoc]
    | rejected error => simp

theorem handleImageUpload_messages_extend (env : ChatEnv) (now1 now2 : String)
    (file : Option File) (outcome : Outcome JsObj) (s : ChatState) :
    s.messages <+: (handleImageUpload env now1 now2 file outcome s).1.messages := by
  cases file with
  | none => exact List.prefix_refl _
  | some f => cases outcome <;> simp [handleImageUpload]

theorem onStop_messages_extend (env : ChatEnv) (now1 now2 : String) (recordedBlob : Blob)
    (outcome : Outcome JsObj) (s : ChatState) :
    s.messages <+: (onStop env now1 now2 recordedBlob outcome s).1.messages := by
  cases outcome with
  | resolved data =>
    unfold onStop
    simp only
    split <;> simp
  | rejected error => simp [onStop]

theorem apply_messages_extend (env : ChatEnv) (s : ChatState) (event : ChatEvent) :
    s.messages <+: (event.apply env s).messages := by
  cases event with
  | sendMessage now text outcome => exact sendMessage_messages_extend env now text outcome s
  | handleImageUpload now1 now2 file outcome =>
    exact handleImageUpload_messages_extend env now1 now2 file outcome s
  | onStop now1 now2 blob outcome => exact onStop_messages_extend env now1 now2 blob outcome s

theorem runChat_messages_extend (env : ChatEnv) (events : List ChatEvent) :
    ∀ s : ChatState, s.messages <+: (runChat env s events).messages := by
  induction events with
  | nil => intro s; exact List.prefix_refl _
  | cons event rest ih =>
    intro s
    exact List.IsPrefix.trans (apply_messages_extend env s event) (ih (event.apply env s))

/-- C9: the chat message list is append-only. The mount state is exactly one
welcome message, whose sender is `ai`; every run of `sendMessage`,
`handleImageUpload` and `onStop`, whatever its inputs and whether the request
succeeds or fails, leaves the previous list as a prefix of the new list; hence
after every sequence of such runs from the mount state the list still starts
with the welcome message. -/
theorem chat_messages_append_only (env : ChatEnv) (now : String) :
    (mountEffect now ChatState.initial).messages = [chatMessage "ai" (JsVal.str welcomeText) now] ∧
    (∀ (s : ChatState) (event : ChatEvent), s.messages <+: (event.apply env s).messages) ∧
    (∀ (s : ChatState) (events : List ChatEvent),
      s.messages <+: (runChat env s events).messages) ∧
    (∀ events : List ChatEvent,
      (runChat env (mountEffect now ChatState.initial) events).messages.head? =
        some (chatMessage "ai" (JsVal.str welcomeText) now)) := by
  refine ⟨rfl, apply_messages_extend env, fun s events => runChat_messages_extend env events s, ?_⟩
  intro events
  obtain ⟨t, ht⟩ := runChat_messages_extend env events (mountEffect now ChatState.initial)
  rw [← ht]
  rfl

/-! ## The image and voice handlers -/

/-- C10: `handleImageUpload` and `onStop` each append exactly two messages on
success, a patient message followed by an AI message (for an image the text
`[Image uploaded: <file name>]` and then the returned `analysis`; for voice the
returned `transcribed_text` and then the returned `ai_response`), and leave the
message list as it was when the request fails; `handleImageUpload` with no file
selected performs no effect, so sends no request, and changes nothing. -/
theorem upload_and_voice_messages (env : ChatEnv) (now1 now2 : String) (f : File)
    (recordedBlob : Blob) (data : JsObj) (error : RequestError) (outcome : Outcome JsObj)
    (s : ChatState) :
    (handleImageUpload env now1 now2 (some f) (Outcome.resolved data) s).1.messages =
      s.messages ++
        [ chatMessage "patient" (JsVal.str ("[Image uploaded: " ++ f.name ++ "]")) now1,
          chatMessage "ai" (JsObj.get data "analysis") now2 ] ∧
    (onStop env now1 now2 recordedBlob (Outcome.resolved data) s).1.messages =
      s.messages ++
        [ chatMessage "patient" (JsObj.get data "transcribed_text") now1,
          chatMessage "ai" (JsObj.get data "ai_response") now2 ] ∧
    (handleImageUpload env now1 now2 (some f) (Outcome.rejected error) s).1.messages =
      s.messages ∧
    (onStop env now1 now2 recordedBlob (Outcome.rejected error) s).1.messages = s.messages ∧
    handleImageUpload env now1 now2 none outcome s = (s, []) := by
  refine ⟨rfl, ?_, rfl, rfl, rfl⟩
  unfold onStop
  simp only
  split <;> rfl

/-! ## Booking an appointment -/

/-- C11: for every selected doctor `d` and every slot value, a run of
`handleBookAppointment` posts exactly `{doctor_id: d.user_id, slot}` to
`/patient/book`; when the post succeeds it resets `bookingDoctor` to `null` and
`slot` to the empty string and re-fetches the appointment list, so that the
list held afterwards is the one the re-fetch returned (and the previous one
when the re-fetch fails); nothing else of the state changes. -/
theorem handleBookAppointment_success (env : PageEnv) (d : JsObj) (slot : String)
    (posted fetched : JsVal) (error : RequestError) (s : PatientState) :
    requests (PatientDashboard.handleBookAppointment env (Outcome.resolved posted)
        (Outcome.resolved fetched) { s with bookingDoctor := some d, slot := slot }).2 =
      [ { method := "POST", url := env.BACKEND_URL ++ "/api" ++ "/patient/book",
          body := Body.json (JsVal.obj [("doctor_id", JsObj.get d "user_id"),
                                        ("slot", JsVal.str slot)]),
          headers := [("Authorization", "Bearer " ++ env.token)] },
        { method := "GET", url := env.BACKEND_URL ++ "/api" ++ "/patient/appointments",
          body := Body.empty, headers := [("Authorization", "Bearer " ++ env.token)] } ] ∧
    (PatientDashboard.handleBookAppointment env (Outcome.resolved posted)
        (Outcome.resolved fetched) { s with bookingDoctor := some d, slot := slot }).1 =
      { s with bookingDoctor := none, slot := "", appointments := fetched } ∧
    requests (PatientDashboard.handleBookAppointment env (Outcome.resolved posted)
        (Outcome.rejected error) { s with bookingDoctor := some d, slot := slot }).2 =
      requests (PatientDashboard.handleBookAppointment env (Outcome.resolved posted)
        (Outcome.resolved fetched) { s with bookingDoctor := some d, slot := slot }).2 ∧
    (PatientDashboard.handleBookAppointment env (Outcome.resolved posted)
        (Outcome.rejected error) { s with bookingDoctor := some d, slot := slot }).1 =
      { s with bookingDoctor := none, slot := "" } :=
  ⟨rfl, rfl, rfl, rfl⟩

/-- C12: when the post to `/patient/book` fails, `handleBookAppointment`
abandons the booking: the whole state (`bookingDoctor`, `slot`, the doctor list
and the appointment list among it) is unchanged, the post is the only request
sent, so no re-fetch of the appointments is issued, and the toast
`Failed to book appointment` is shown. -/
theorem handleBookAppointment_failure (env : PageEnv) (d : JsObj) (slot : String)
    (error : RequestError) (fetchOutcome : Outcome JsVal) (s : PatientState) :
    (PatientDashboard.handleBookAppointment env (Outcome.rejected error) fetchOutcome
        { s with bookingDoctor := some d, slot := slot }).1 =
      { s with bookingDoctor := some d, slot := slot } ∧
    (requests (PatientDashboard.handleBookAppointment env (Outcome.rejected error) fetchOutcome
        { s with bookingDoctor := some d, slot := slot }).2).map (fun r => (r.method, r.url)) =
      [("POST", env.BACKEND_URL ++ "/api" ++ "/patient/book")] ∧
    errorToasts (PatientDashboard.handleBookAppointment env (Outcome.rejected error) fetchOutcome
        { s with bookingDoctor := some d, slot := slot }).2 = ["Failed to book appointment"] :=
  ⟨rfl, rfl, rfl⟩

/-! ## The search filter of the doctor dashboard -/

/-- The scan `includesChars` decides the infix relation of lists. -/
theorem includesChars_iff (needle hay : List Char) :
    includesChars needle hay = true ↔ needle <:+: hay := by
  induction hay with
  | nil => simp [includesChars, List.infix_nil]
  | cons c cs ih =>
    simp only [includesChars, Bool.or_eq_true, ih, List.isPrefixOf_iff_prefix,
      List.infix_cons_iff]

/-- The method `includes` holds exactly when the needle is a contiguous run of
the characters of the text. -/
theorem includes_iff (hay needle : String) :
    includes hay needle = true ↔ needle.data <:+: hay.data :=
  includesChars_iff needle.data hay.data

theorem filterThrowing_of_total {α : Type} (keep : α → Option Bool) (k : α → Bool) :
    ∀ l : List α, (∀ x ∈ l, keep x = some (k x)) → filterThrowing keep l = some (l.filter k) := by
  intro l
  induction l with
  | nil => intro _; rfl
  | cons x xs ih =>
    intro h
    have hx := h x (List.mem_cons_self x xs)
    have hxs := ih (fun y hy => h y (List.mem_cons_of_mem x hy))
    simp only [filterThrowing, hx, hxs, List.filter_cons]

theorem matchesSearch_of_isAppointment (lower : String → String) (searchTerm : String)
    (apt : JsVal) (h : isAppointment apt = true) :
    matchesSearch lower searchTerm apt = some (nameContains lower searchTerm apt) := by
  cases apt with
  | obj fields =>
    simp only [isAppointment] at h
    simp only [matchesSearch, nameContains, patientName, JsVal.prop]
    cases hp : JsObj.get fields "patient" with
    | obj patient =>
      simp only [hp] at h
      cases hn : JsObj.get patient "name" with
      | str name =>
        have hi : includes (lower name) (lower searchTerm) =
            decide ((lower searchTerm).data <:+: (lower name).data) := by
          rw [Bool.eq_iff_iff, includes_iff]
          simp
        simp only [hn, hi]
      | undefined => simp only [hn]
      | null => simp only [hn]
      | bool b => simp [hn] at h
      | num n => simp [hn] at h
      | arr items => simp [hn] at h
      | obj o => simp [hn] at h
    | undefined => rfl
    | null => rfl
    | bool b => rfl
    | num n => rfl
    | str t => rfl
    | arr items => rfl
  | undefined => simp [isAppointment] at h
  | null => simp [isAppointment] at h
  | bool b => simp [isAppointment] at h
  | num n => simp [isAppointment] at h
  | str t => simp [isAppointment] at h
  | arr items => simp [isAppointment] at h

/-- C13: for every list of appointment records and every search term,
`filteredAppointments` evaluates and is exactly the appointments whose patient
name contains the search term as a substring when both are lower-cased, kept in
their original order; it is a sublist of the fetched appointments, and the match
reads the term and the names only through their lower-casing, so two search
terms with the same lower-casing give the same result. This holds whatever the
built-in lower-casing `lower` is. -/
theorem filteredAppointments_spec (lower : String → String) (items : List JsVal)
    (searchTerm : String) (hItems : ∀ apt ∈ items, isAppointment apt = true) :
    filteredAppointments lower (JsVal.arr items) searchTerm =
      some (items.filter (nameContains lower searchTerm)) ∧
    (items.filter (nameContains lower searchTerm)).Sublist items ∧
    (∀ other : String, lower other = lower searchTerm →
      filteredAppointments lower (JsVal.arr items) other =
        filteredAppointments lower (JsVal.arr items) searchTerm) := by
  have key : ∀ term : String, filteredAppointments lower (JsVal.arr items) term =
      some (items.filter (nameContains lower term)) := fun term =>
    filterThrowing_of_total (matchesSearch lower term) (nameContains lower term) items
      (fun apt hapt => matchesSearch_of_isAppointment lower term apt (hItems apt hapt))
  refine ⟨key searchTerm, List.filter_sublist items, ?_⟩
  intro other hother
  rw [key other, key searchTerm]
  have hfun : nameContains lower other = nameContains lower searchTerm := by
    funext apt
    simp only [nameContains, hother]
  rw [hfun]

/-- Witness of C13: three appointments, searched for `JOSÉ`; on these texts of
characters below U+0100 the built-in lower-casing is `toLowerCaseLatin1`. -/
theorem filteredAppointments_spec_witness :
    filteredAppointments toLowerCaseLatin1
        (JsVal.arr
          [ JsVal.obj [("appointment_id", JsVal.str "a1"),
              ("patient", JsVal.obj [("name", JsVal.str "Alice Roy")])],
            JsVal.obj [("appointment_id", JsVal.str "a2"),
              ("patient", JsVal.obj [("name", JsVal.str "José Álvarez")])],
            JsVal.obj [("appointment_id", JsVal.str "a3"),
              ("patient", JsVal.obj [("name", JsVal.str "Maria-José")])] ]) "JOSÉ" =
      some
        [ JsVal.obj [("appointment_id", JsVal.str "a2"),
            ("patient", JsVal.obj [("name", JsVal.str "José Álvarez")])],
          JsVal.obj [("appointment_id", JsVal.str "a3"),
            ("patient", JsVal.obj [("name", JsVal.str "Maria-José")])] ] :=
  ((filteredAppointments_spec toLowerCaseLatin1
      [ JsVal.obj [("appointment_id", JsVal.str "a1"),
          ("patient", JsVal.obj [("name", JsVal.str "Alice Roy")])],
        JsVal.obj [("appointment_id", JsVal.str "a2"),
          ("patient", JsVal.obj [("name", JsVal.str "José Álvarez")])],
        JsVal.obj [("appointment_id", JsVal.str "a3"),
          ("patient", JsVal.obj [("name", JsVal.str "Maria-José")])] ] "JOSÉ"
      (by decide)).1).trans rfl

/-- An instance of the filter beyond ASCII: the appointment of `José Álvarez` is
listed for the search term `JOSÉ` and for `álv`, and not for `jose`. -/
theorem filteredAppointments_latin1 :
    filteredAppointments toLowerCaseLatin1
        (JsVal.arr [JsVal.obj [("appointment_id", JsVal.str "a1"),
          ("patient", JsVal.obj [("name", JsVal.str "José Álvarez")])]]) "JOSÉ" =
      some [JsVal.obj [("appointment_id", JsVal.str "a1"),
        ("patient", JsVal.obj [("name", JsVal.str "José Álvarez")])]] ∧
    filteredAppointments toLowerCaseLatin1
        (JsVal.arr [JsVal.obj [("appointment_id", JsVal.str "a1"),
          ("patient", JsVal.obj [("name", JsVal.str "José Álvarez")])]]) "álv" =
      some [JsVal.obj [("appointment_id", JsVal.str "a1"),
        ("patient", JsVal.obj [("name", JsVal.str "José Álvarez")])]] ∧
    filteredAppointments toLowerCaseLatin1
        (JsVal.arr [JsVal.obj [("appointment_id", JsVal.str "a1"),
          ("patient", JsVal.obj [("name", JsVal.str "José Álvarez")])]]) "jose" =
      some [] :=
  ⟨rfl, rfl, rfl⟩

/-- C14, evaluated on the code: with an empty search term an appointment whose
patient record is missing, and one whose patient has no name, are both filtered
out, whatever the lower-casing does, so the list shows `No appointments found`
for them although the card of such an appointment would be headed
`Unknown Patient`; an appointment with a patient name is kept. -/
theorem filteredAppointments_empty_term_drops_unnamed :
    filteredAppointments toLowerCase
        (JsVal.arr
          [ JsVal.obj [("appointment_id", JsVal.str "a1"), ("status", JsVal.str "booked")],
            JsVal.obj [("appointment_id", JsVal.str "a2"), ("patient", JsVal.obj [])],
            JsVal.obj [("appointment_id", JsVal.str "a3"),
              ("patient", JsVal.obj [("name", JsVal.str "Bob")])] ]) "" =
      some [ JsVal.obj [("appointment_id", JsVal.str "a3"),
              ("patient", JsVal.obj [("name", JsVal.str "Bob")])] ] ∧
    (∀ lower : String → String,
      filteredAppointments lower
        (JsVal.arr
          [ JsVal.obj [("appointment_id", JsVal.str "a1"), ("status", JsVal.str "booked")],
            JsVal.obj [("appointment_id", JsVal.str "a2"), ("patient", JsVal.obj [])] ]) "" =
      some []) ∧
    patientHeading (JsVal.obj [("appointment_id", JsVal.str "a1"), ("status", JsVal.str "booked")]) =
      JsVal.str "Unknown Patient" := by
  refine ⟨rfl, fun _ => rfl, rfl⟩

/-! ## Failed remote calls -/

/-- C15 as stated fails on the auth handlers: the toast of a failed login is the
`detail` of the error response when it has a truthy one, a text or any other
value such as the list of a validation error, so two failures show two
different toasts. -/
theorem handleLogin_toast_depends_on_error :
    errorToastValues (handleLogin
      (Outcome.rejected ⟨some ⟨some ⟨JsVal.str "Invalid credentials"⟩⟩⟩)
      AuthState.initial).2 = [JsVal.str "Invalid credentials"] ∧
    errorToastValues (handleLogin (Outcome.rejected ⟨none⟩) AuthState.initial).2 =
      [JsVal.str "Login failed"] ∧
    errorToastValues (handleLogin
      (Outcome.rejected ⟨some ⟨some ⟨JsVal.str "Invalid credentials"⟩⟩⟩)
      AuthState.initial).2 ≠
    errorToastValues (handleLogin (Outcome.rejected ⟨none⟩) AuthState.initial).2 ∧
    errorToastValues (handleLogin
      (Outcome.rejected ⟨some ⟨some ⟨JsVal.arr [JsVal.obj [("msg", JsVal.str "field required")]]⟩⟩⟩)
      AuthState.initial).2 = [JsVal.arr [JsVal.obj [("msg", JsVal.str "field required")]]] := by
  have h1 : errorToastValues (handleLogin
      (Outcome.rejected ⟨some ⟨some ⟨JsVal.str "Invalid credentials"⟩⟩⟩)
      AuthState.initial).2 = [JsVal.str "Invalid credentials"] := rfl
  have h2 : errorToastValues (handleLogin (Outcome.rejected ⟨none⟩) AuthState.initial).2 =
      [JsVal.str "Login failed"] := rfl
  refine ⟨h1, h2, ?_, rfl⟩
  rw [h1, h2]
  intro h
  simp at h

/-- C15, amended: every handler that makes a remote call returns normally when
the call fails and shows exactly one error toast. For fetching doctors,
appointments and a summary, booking, sending a message, image upload, voice and
end chat the toast is a fixed text that does not depend on the error; for login
and signup it is the `detail` of the error response whenever that `detail` is
truthy, whatever its type, and the fixed text `Login failed` or `Signup failed`
otherwise (no response, no `detail`, or a falsy one such as the empty text). -/
theorem remote_failure_toasts (error : RequestError) (auth : AuthState) (env : PageEnv)
    (chat : ChatEnv) (patient : PatientState) (doctor : DoctorState) (summary : SummaryState)
    (messages : ChatState) (summaryId now now2 text : String) (d : JsObj) (f : File)
    (recordedBlob : Blob) (fetchOutcome : Outcome JsVal) :
    errorToastValues (handleLogin (Outcome.rejected error) auth).2 =
      [if jsTruthy error.detail then error.detail else JsVal.str "Login failed"] ∧
    errorToastValues (handleSignup (Outcome.rejected error) auth).2 =
      [if jsTruthy error.detail then error.detail else JsVal.str "Signup failed"] ∧
    errorToastValues (handleLogin (Outcome.rejected ⟨none⟩) auth).2 =
      [JsVal.str "Login failed"] ∧
    errorToastValues (handleSignup (Outcome.rejected ⟨some ⟨some ⟨JsVal.str ""⟩⟩⟩) auth).2 =
      [JsVal.str "Signup failed"] ∧
    errorToastValues (PatientDashboard.fetchDoctors env (Outcome.rejected error) patient).2 =
      [JsVal.str "Failed to load doctors"] ∧
    errorToastValues (PatientDashboard.fetchAppointments env (Outcome.rejected error) patient).2 =
      [JsVal.str "Failed to load appointments"] ∧
    errorToastValues (DoctorDashboard.fetchAppointments env (Outcome.rejected error) doctor).2 =
      [JsVal.str "Failed to load appointments"] ∧
    errorToastValues (fetchSummary env summaryId (Outcome.rejected error) summary).2 =
      [JsVal.str "Failed to load summary"] ∧
    errorToastValues (PatientDashboard.handleBookAppointment env (Outcome.rejected error)
      fetchOutcome { patient with bookingDoctor := some d }).2 =
      [JsVal.str "Failed to book appointment"] ∧
    errorToastValues (sendMessage chat now text (Outcome.rejected error) messages).2 =
      (if truthyStr (some (trim text)) then [JsVal.str "Failed to send message"] else []) ∧
    errorToastValues
        (handleImageUpload chat now now2 (some f) (Outcome.rejected error) messages).2 =
      [JsVal.str "Failed to upload image"] ∧
    errorToastValues (onStop chat now now2 recordedBlob (Outcome.rejected error) messages).2 =
      [JsVal.str "Failed to process voice input"] ∧
    errorToastValues (handleEndChat chat (Outcome.rejected error) messages).2 =
      [JsVal.str "Failed to end consultation"] := by
  refine ⟨rfl, rfl, rfl, rfl, rfl, rfl, rfl, rfl, rfl, ?_, rfl, rfl, rfl⟩
  unfold sendMessage
  cases truthyStr (some (trim text)) <;> rfl

/-! ## The bearer header -/

/-- C16: every request issued by the page handlers of `PatientDashboard`,
`DoctorDashboard`, `SummaryView` and `ChatbotPage` carries the header
`Authorization` equal to `Bearer ` followed by the session token. The requests
of each handler are listed in full, for every input: method, address and
`Authorization` value. -/
theorem requests_carry_bearer (env : PageEnv) (chat : ChatEnv) (patient : PatientState)
    (doctor : DoctorState) (summary : SummaryState) (messages : ChatState)
    (summaryId now now2 text : String) (d : JsObj) (f : File) (recordedBlob : Blob)
    (error : RequestError) (posted : JsVal) (outcome fetchOutcome : Outcome JsVal)
    (reply : Outcome JsObj) :
    requestLines (PatientDashboard.fetchDoctors env outcome patient).2 =
      [("GET", env.BACKEND_URL ++ "/api" ++ "/patient/doctors", some ("Bearer " ++ env.token))] ∧
    requestLines (PatientDashboard.fetchAppointments env outcome patient).2 =
      [("GET", env.BACKEND_URL ++ "/api" ++ "/patient/appointments",
        some ("Bearer " ++ env.token))] ∧
    requestLines (PatientDashboard.handleBookAppointment env (Outcome.resolved posted) fetchOutcome
        { patient with bookingDoctor := some d }).2 =
      [("POST", env.BACKEND_URL ++ "/api" ++ "/patient/book", some ("Bearer " ++ env.token)),
       ("GET", env.BACKEND_URL ++ "/api" ++ "/patient/appointments",
        some ("Bearer " ++ env.token))] ∧
    requestLines (PatientDashboard.handleBookAppointment env (Outcome.rejected error) fetchOutcome
        { patient with bookingDoctor := some d }).2 =
      [("POST", env.BACKEND_URL ++ "/api" ++ "/patient/book", some ("Bearer " ++ env.token))] ∧
    requestLines (PatientDashboard.handleBookAppointment env outcome fetchOutcome
        { patient with bookingDoctor := none }).2 = [] ∧
    requestLines (DoctorDashboard.fetchAppointments env outcome doctor).2 =
      [("GET", env.BACKEND_URL ++ "/api" ++ "/doctor/appointments",
        some ("Bearer " ++ env.token))] ∧
    requestLines (fetchSummary env summaryId outcome summary).2 =
      [("GET", env.BACKEND_URL ++ "/api" ++ ("/doctor/summary/" ++ summaryId),
        some ("Bearer " ++ env.token))] ∧
    requestLines (sendMessage chat now text reply messages).2 =
      (if truthyStr (some (trim text)) then
        [("POST", chat.BACKEND_URL ++ "/api" ++ "/chat/message", some ("Bearer " ++ chat.token))]
       else []) ∧
    requestLines (handleImageUpload chat now now2 (some f) reply messages).2 =
      [("POST", chat.BACKEND_URL ++ "/api" ++ "/chat/upload", some ("Bearer " ++ chat.token))] ∧
    requestLines (handleImageUpload chat now now2 none reply messages).2 = [] ∧
    requestLines (onStop chat now now2 recordedBlob reply messages).2 =
      [("POST", chat.BACKEND_URL ++ "/api" ++ "/chat/voice", some ("Bearer " ++ chat.token))] ∧
    requestLines (handleEndChat chat outcome messages).2 =
      [("POST", chat.BACKEND_URL ++ "/api" ++ "/chat/end?appointment_id=" ++ chat.appointmentId,
        some ("Bearer " ++ chat.token))] := by
  refine ⟨?_, ?_, ?_, rfl, rfl, ?_, ?_, ?_, ?_, rfl, ?_, ?_⟩
  · cases outcome <;> rfl
  · cases outcome <;> rfl
  · cases fetchOutcome <;> rfl
  · cases outcome <;> rfl
  · cases outcome <;> rfl
  · unfold sendMessage
    cases truthyStr (some (trim text))
    · rfl
    · cases reply with
      | resolved data =>
        simp only [Bool.not_true, Bool.false_eq_true, if_false, if_true]
        split
        · split <;> rfl
        · rfl
      | rejected e => rfl
  · cases reply <;> rfl
  · cases reply with
    | resolved data =>
      unfold onStop
      simp only
      split <;> rfl
    | rejected e => rfl
  · cases outcome <;> rfl

/-! ## The export of the summary view -/

/-- C17: `handleExport` is client-side only: for every summary (and whatever
the serialiser and the encoder give) it sends no request to the backend and
leaves the component state, `summary` and `loading`, unchanged. -/
theorem handleExport_client_side (stringify : JsVal → String)
    (encodeURIComponent : String → String) (summaryId : String) (s : SummaryState) :
    (handleExport stringify encodeURIComponent summaryId s).1 = s ∧
    requests (handleExport stringify encodeURIComponent summaryId s).2 = [] ∧
    (handleExport stringify encodeURIComponent summaryId s).2.any Effect.isRequest = false :=
  ⟨rfl, rfl, rfl⟩

/-- C18: for every fetched summary record `data` and every `summaryId`, the
document that `handleExport` offers for download after the fetch stored `data`
is the serialisation of the whole record `data` (not of its `summary_json`
field), percent-encoded into a `data:` address, and the download is named
`patient-summary-<summaryId>.json`. -/
theorem handleExport_document (stringify : JsVal → String)
    (encodeURIComponent : String → String) (env : PageEnv) (summaryId : String) (data : JsVal)
    (s : SummaryState) :
    (fetchSummary env summaryId (Outcome.resolved data) s).1.summary = data ∧
    (handleExport stringify encodeURIComponent summaryId
        (fetchSummary env summaryId (Outcome.resolved data) s).1).2 =
      [ Effect.download
          ("data:application/json;charset=utf-8," ++ encodeURIComponent (stringify data))
          ("patient-summary-" ++ summaryId ++ ".json"),
        Effect.toastSuccess "Summary exported" ] :=
  ⟨rfl, rfl⟩

/-! ## The symptoms section -/

theorem JsObj.get_nil (key : String) : JsObj.get [] key = JsVal.undefined := rfl

/-- C19 as stated fails on a list that holds an object: for the symptoms
`[{name: 'headache'}]` the badge would get the object as its child, which React
refuses, so the render throws and shows neither one badge per symptom nor
`No symptoms recorded`. -/
theorem symptomsSection_throws_on_object :
    symptomsSection
        (JsVal.obj [("summary_text", JsVal.str "Headache for two days."),
          ("summary_json", JsVal.obj
            [("symptoms", JsVal.arr [JsVal.obj [("name", JsVal.str "headache")]])])]) = none ∧
    symptomsSection
        (JsVal.obj [("summary_text", JsVal.str "Headache for two days."),
          ("summary_json", JsVal.obj
            [("symptoms", JsVal.arr [JsVal.obj [("name", JsVal.str "headache")]])])]) ≠
      some (SymptomsSection.badges [JsVal.obj [("name", JsVal.str "headache")]]) := by
  have h : symptomsSection
        (JsVal.obj [("summary_text", JsVal.str "Headache for two days."),
          ("summary_json", JsVal.obj
            [("symptoms", JsVal.arr [JsVal.obj [("name", JsVal.str "headache")]])])]) = none :=
    rfl
  refine ⟨h, ?_⟩
  rw [h]
  simp

/-- C19, amended: for every summary record whose `summary_json` is absent, or
is a record whose `symptoms` field is absent, empty or a list of values that
React renders as children (texts, numbers and the like, not objects), the
symptoms section renders one badge per symptom, in the order and with the
values of the payload, when the list is non-empty, and `No symptoms recorded`
when there are no symptoms; a non-empty list in which some value is not such a
child makes the render throw. -/
theorem symptomsSection_spec (fields data : JsObj) (items : List JsVal) :
    (JsObj.get fields "summary_json" = JsVal.undefined ∨
        JsObj.get fields "summary_json" = JsVal.null →
      symptomsSection (JsVal.obj fields) = some SymptomsSection.noSymptoms) ∧
    (JsObj.get fields "summary_json" = JsVal.obj data →
      (JsObj.get data "symptoms" = JsVal.undefined ∨ JsObj.get data "symptoms" = JsVal.null ∨
          JsObj.get data "symptoms" = JsVal.str "" ∨ JsObj.get data "symptoms" = JsVal.arr [] →
        symptomsSection (JsVal.obj fields) = some SymptomsSection.noSymptoms) ∧
      (JsObj.get data "symptoms" = JsVal.arr items → items ≠ [] →
        validChildren items = true →
        symptomsSection (JsVal.obj fields) = some (SymptomsSection.badges items)) ∧
      (JsObj.get data "symptoms" = JsVal.arr items → items ≠ [] →
        validChildren items = false →
        symptomsSection (JsVal.obj fields) = none)) := by
  refine ⟨?_, ?_⟩
  · rintro (h | h) <;> simp [symptomsSection, JsVal.prop, h, jsTruthy, JsObj.get_nil]
  · intro hj
    refine ⟨?_, ?_, ?_⟩
    · rintro (h | h | h | h) <;>
        simp [symptomsSection, JsVal.prop, hj, h, jsTruthy]
    · intro h hne hv
      have hpos : items.length > 0 := List.length_pos.mpr hne
      simp [symptomsSection, JsVal.prop, hj, h, jsTruthy, hpos, hv]
    · intro h hne hv
      have hpos : items.length > 0 := List.length_pos.mpr hne
      simp [symptomsSection, JsVal.prop, hj, h, jsTruthy, hpos, hv]

/-- Witness of C19: two symptoms give two badges, in order. -/
theorem symptomsSection_spec_witness :
    symptomsSection
        (JsVal.obj [("summary_text", JsVal.str "Headache for two days."),
          ("summary_json", JsVal.obj
            [("symptoms", JsVal.arr [JsVal.str "headache", JsVal.str "nausea"])])]) =
      some (SymptomsSection.badges [JsVal.str "headache", JsVal.str "nausea"]) :=
  ((symptomsSection_spec
      [("summary_text", JsVal.str "Headache for two days."),
        ("summary_json", JsVal.obj
          [("symptoms", JsVal.arr [JsVal.str "headache", JsVal.str "nausea"])])]
      [("symptoms", JsVal.arr [JsVal.str "headache", JsVal.str "nausea"])]
      [JsVal.str "headache", JsVal.str "nausea"]).2 rfl).2.1 rfl (by simp) rfl

/-! ## The senders of the chat messages -/

/-- C20 as stated fails on the text handler: a reply whose `sender` is neither
`patient` nor `ai` is appended as the backend sent it, so the sender invariant
holds at the mount state and is lost after the run. -/
theorem sendMessage_breaks_sendersKnown :
    sendersKnown (mountEffect "t0" ChatState.initial) = true ∧
    sendersKnown (sendMessage ⟨"http://localhost:8000", "apt-1", "tok"⟩ "t1" "hello"
      (Outcome.resolved
        [("ai_response", JsVal.obj [("sender", JsVal.str "assistant"),
            ("message", JsVal.str "Hi, how can I help?")])])
      (mountEffect "t0" ChatState.initial)).1 = false := by
  refine ⟨by decide, by decide⟩

/-- C20, amended: the message of the mount state has sender `ai`;
`handleImageUpload` and `onStop` keep the sender invariant for every backend
response, and `sendMessage` keeps it when the request fails or the text is
blank; when the request of `sendMessage` succeeds for a text that is not blank,
the invariant holds afterwards exactly when it held before and the reply of the
backend, which is appended unchanged, is itself a record whose sender is
`patient` or `ai`. -/
theorem sendersKnown_preserved (env : ChatEnv) (now now2 text : String) (file : Option File)
    (recordedBlob : Blob) (data : JsObj) (error : RequestError) (outcome : Outcome JsObj)
    (s : ChatState) :
    sendersKnown (mountEffect now ChatState.initial) = true ∧
    sendersKnown (handleImageUpload env now now2 file outcome s).1 = sendersKnown s ∧
    sendersKnown (onStop env now now2 recordedBlob outcome s).1 = sendersKnown s ∧
    sendersKnown (sendMessage env now text (Outcome.rejected error) s).1 = sendersKnown s ∧
    sendersKnown (sendMessage env now text (Outcome.resolved data) s).1 =
      (sendersKnown s &&
        (if truthyStr (some (trim text)) then hasKnownSender (JsObj.get data "ai_response")
         else true)) := by
  have hp : ∀ (m : JsVal) (t : String), hasKnownSender (chatMessage "patient" m t) = true :=
    fun _ _ => rfl
  have ha : ∀ (m : JsVal) (t : String), hasKnownSender (chatMessage "ai" m t) = true :=
    fun _ _ => rfl
  refine ⟨rfl, ?_, ?_, ?_, ?_⟩
  · cases file with
    | none => rfl
    | some f =>
      cases outcome with
      | resolved d => simp [handleImageUpload, sendersKnown, List.all_append, hp, ha]
      | rejected e => rfl
  · cases outcome with
    | resolved d =>
      unfold onStop
      simp only
      split <;> simp [sendersKnown, List.all_append, hp, ha]
    | rejected e => rfl
  · unfold sendMessage
    cases truthyStr (some (trim text))
    · rfl
    · simp [sendersKnown, List.all_append, hp]
  · unfold sendMessage
    cases truthyStr (some (trim text))
    · simp
    · simp only [Bool.not_true, Bool.false_eq_true, if_false, if_true]
      split
      · split <;> simp [sendersKnown, List.all_append, hp]
      · simp [sendersKnown, List.all_append, hp]

/-! ## The specialization of a signup -/

/-- C21, evaluated on the code: choosing the role `doctor`, typing a
specialization and choosing the role `patient` again leaves the typed
specialization in the form state, and the signup then submitted with role
`patient` passes it to `signup`. -/
theorem handleSignup_patient_keeps_specialization :
    (editSignup AuthState.initial
      [SignupEdit.name "Ann", SignupEdit.role "doctor", SignupEdit.specialization "Cardiology",
       SignupEdit.role "patient"]).signupData.role = "patient" ∧
    signupCalls (handleSignup (Outcome.resolved (some ⟨some "patient", some "Ann"⟩))
      (editSignup AuthState.initial
        [SignupEdit.name "Ann", SignupEdit.role "doctor", SignupEdit.specialization "Cardiology",
         SignupEdit.role "patient"])).2 =
      [{ name := "Ann", email := "", password := "", role := "patient", region := "",
         specialization := "Cardiology" }] := by
  refine ⟨by decide, by decide⟩

/-! ## Replies without a message text -/

/-- C22, evaluated on the code: for a response whose `ai_response` has no
message text, and for one without `ai_response`, `sendMessage` shows the toast
`Failed to send message` and the message list nevertheless ends with what the
response carried as reply (the record without text, or `undefined`), after the
patient message. -/
theorem sendMessage_toast_with_reply_added :
    (sendMessage ⟨"http://localhost:8000", "apt-1", "tok"⟩ "t1" "hello"
        (Outcome.resolved [("ai_response", JsVal.obj [("sender", JsVal.str "ai")])])
        (mountEffect "t0" ChatState.initial)).1.messages =
      [ chatMessage "ai" (JsVal.str welcomeText) "t0",
        chatMessage "patient" (JsVal.str "hello") "t1",
        JsVal.obj [("sender", JsVal.str "ai")] ] ∧
    errorToasts (sendMessage ⟨"http://localhost:8000", "apt-1", "tok"⟩ "t1" "hello"
        (Outcome.resolved [("ai_response", JsVal.obj [("sender", JsVal.str "ai")])])
        (mountEffect "t0" ChatState.initial)).2 = ["Failed to send message"] ∧
    (sendMessage ⟨"http://localhost:8000", "apt-1", "tok"⟩ "t1" "hello"
        (Outcome.resolved []) (mountEffect "t0" ChatState.initial)).1.messages =
      [ chatMessage "ai" (JsVal.str welcomeText) "t0",
        chatMessage "patient" (JsVal.str "hello") "t1",
        JsVal.undefined ] ∧
    errorToasts (sendMessage ⟨"http://localhost:8000", "apt-1", "tok"⟩ "t1" "hello"
        (Outcome.resolved []) (mountEffect "t0" ChatState.initial)).2 =
      ["Failed to send message"] := by
  refine ⟨rfl, by decide, rfl, by decide⟩

/-! ## Blank and exact texts -/

theorem truthy_trim_of_blank (text : String)
    (h : ∀ c ∈ text.data, isJsWhitespace c = true) : truthyStr (some (trim text)) = false := by
  have he := (trim_eq_empty_iff text).mpr h
  rw [he]
  rfl

/-- C23: for every text that is empty or consists of white space only,
`sendMessage` does nothing: the whole state (message list, input field and
loading flag among it) is unchanged and no effect is performed, so no request
is sent; for every other text the one request posts the text as it was given
and the patient message appended right after the previous list carries the
same text, neither of them trimmed. -/
theorem sendMessage_blank_or_exact (env : ChatEnv) (now text : String)
    (outcome : Outcome JsObj) (s : ChatState) :
    ((∀ c ∈ text.data, isJsWhitespace c = true) →
      sendMessage env now text outcome s = (s, [])) ∧
    ((∃ c ∈ text.data, isJsWhitespace c = false) →
      (requests (sendMessage env now text outcome s).2).map (fun r => r.body) =
        [Body.json (JsVal.obj [("appointment_id", JsVal.str env.appointmentId),
                               ("message", JsVal.str text)])] ∧
      ∃ rest, (sendMessage env now text outcome s).1.messages =
        s.messages ++ chatMessage "patient" (JsVal.str text) now :: rest) := by
  refine ⟨?_, ?_⟩
  · intro h
    have ht := truthy_trim_of_blank text h
    unfold sendMessage
    simp [ht]
  · intro h
    have ht := truthy_trim_of_not_blank text h
    unfold sendMessage
    simp only [ht, Bool.not_true, Bool.false_eq_true, if_false]
    cases outcome with
    | resolved data =>
      simp only
      split
      · split
        · exact ⟨rfl, [JsObj.get data "ai_response"], by simp⟩
        · exact ⟨rfl, [JsObj.get data "ai_response"], by simp⟩
      · exact ⟨rfl, [JsObj.get data "ai_response"], by simp⟩
    | rejected error => exact ⟨rfl, [], by simp⟩

/-- Witness of C23: a text of blanks changes nothing, and a text with blanks
around a word is posted with its blanks. -/
theorem sendMessage_blank_or_exact_witness :
    sendMessage ⟨"http://localhost:8000", "apt-1", "tok"⟩ "t1" "  \n "
        (Outcome.rejected ⟨none⟩) (mountEffect "t0" ChatState.initial) =
      (mountEffect "t0" ChatState.initial, []) ∧
    (requests (sendMessage ⟨"http://localhost:8000", "apt-1", "tok"⟩ "t1" " hi "
        (Outcome.rejected ⟨none⟩) (mountEffect "t0" ChatState.initial)).2).map (fun r => r.body) =
      [Body.json (JsVal.obj [("appointment_id", JsVal.str "apt-1"),
                             ("message", JsVal.str " hi ")])] :=
  ⟨(sendMessage_blank_or_exact ⟨"http://localhost:8000", "apt-1", "tok"⟩ "t1" "  \n "
      (Outcome.rejected ⟨none⟩) (mountEffect "t0" ChatState.initial)).1 (by decide),
   ((sendMessage_blank_or_exact ⟨"http://localhost:8000", "apt-1", "tok"⟩ "t1" " hi "
      (Outcome.rejected ⟨none⟩) (mountEffect "t0" ChatState.initial)).2
      ⟨'h', by decide, by decide⟩).1⟩

/-! ## The screens of the summary view -/

/-- C24, evaluated on the code: after the summary of `s1` was fetched, a change
of the route parameter to `s2` whose fetch fails leaves the view not loading and
showing the summary of `s1`, not `Summary not found`. -/
theorem summaryView_shows_previous_summary :
    (visitSummaries ⟨"http://localhost:8000", "tok"⟩
      [ ("s1", Outcome.resolved (JsVal.obj [("summary_id", JsVal.str "s1"),
          ("summary_text", JsVal.str "Headache for two days.")])),
        ("s2", Outcome.rejected ⟨none⟩) ]).loading = false ∧
    SummaryView (visitSummaries ⟨"http://localhost:8000", "tok"⟩
      [ ("s1", Outcome.resolved (JsVal.obj [("summary_id", JsVal.str "s1"),
          ("summary_text", JsVal.str "Headache for two days.")])),
        ("s2", Outcome.rejected ⟨none⟩) ]) =
      SummaryScreen.summary (JsVal.obj [("summary_id", JsVal.str "s1"),
        ("summary_text", JsVal.str "Headache for two days.")]) :=
  ⟨rfl, rfl⟩

/-- C25: the export button is part of the render exactly in the states where
`loading` is false and `summary` is truthy, so in every state that offers the
export the summary is not `null` and `handleExport` serialises the summary that
is shown; after a first fetch that fails the view shows `Summary not found` and
offers no export. -/
theorem exportOffered_iff (env : PageEnv) (summaryId : String) (error : RequestError)
    (s : SummaryState) :
    (exportOffered s = true ↔ s.loading = false ∧ jsTruthy s.summary = true) ∧
    (exportOffered s = true → s.summary ≠ JsVal.null ∧ s.summary ≠ JsVal.undefined ∧
      SummaryView s = SummaryScreen.summary s.summary) ∧
    SummaryView (fetchSummary env summaryId (Outcome.rejected error) SummaryState.initial).1 =
      SummaryScreen.notFound ∧
    exportOffered (fetchSummary env summaryId (Outcome.rejected error) SummaryState.initial).1 =
      false := by
  have key : exportOffered s = true ↔ s.loading = false ∧ jsTruthy s.summary = true := by
    unfold exportOffered SummaryView
    cases hl : s.loading <;> cases ht : jsTruthy s.summary <;> simp
  refine ⟨key, ?_, rfl, rfl⟩
  intro h
  obtain ⟨hl, ht⟩ := key.mp h
  refine ⟨?_, ?_, ?_⟩
  · intro hn
    rw [hn] at ht
    simp [jsTruthy] at ht
  · intro hn
    rw [hn] at ht
    simp [jsTruthy] at ht
  · simp [SummaryView, hl, ht]

/-- Witness of C25: a fetched summary is offered for export and is not `null`. -/
theorem exportOffered_iff_witness :
    (fetchSummary ⟨"http://localhost:8000", "tok"⟩ "s1"
        (Outcome.resolved (JsVal.obj [("summary_text", JsVal.str "Headache.")]))
        SummaryState.initial).1.summary ≠ JsVal.null :=
  ((exportOffered_iff ⟨"http://localhost:8000", "tok"⟩ "s1" ⟨none⟩
    (fetchSummary ⟨"http://localhost:8000", "tok"⟩ "s1"
      (Outcome.resolved (JsVal.obj [("summary_text", JsVal.str "Headache.")]))
      SummaryState.initial).1).2.1 rfl).1

/-! ## Landing on the dashboard -/

/-- C26: for every user returned by a successful login or signup whose role is
`patient` or `doctor`, the one route that `handleLogin` and `handleSignup`
navigate to renders, for that user, the dashboard of the role and no redirect. -/
theorem auth_navigation_admitted (s : AuthState) (user : User) :
    (user.role = some "patient" →
      navigations (handleLogin (Outcome.resolved (some user)) s).2 = ["/patient/dashboard"] ∧
      navigations (handleSignup (Outcome.resolved (some user)) s).2 = ["/patient/dashboard"] ∧
      App (some user) "/patient/dashboard" = some (Rendered.children Page.PatientDashboard)) ∧
    (user.role = some "doctor" →
      navigations (handleLogin (Outcome.resolved (some user)) s).2 = ["/doctor/dashboard"] ∧
      navigations (handleSignup (Outcome.resolved (some user)) s).2 = ["/doctor/dashboard"] ∧
      App (some user) "/doctor/dashboard" = some (Rendered.children Page.DoctorDashboard)) := by
  have hp : ("patient" : String) ≠ "" := by decide
  have hd : ("doctor" : String) ≠ "" := by decide
  refine ⟨?_, ?_⟩
  · intro h
    refine ⟨?_, ?_, ?_⟩
    · simp [handleLogin, navigations, h]
    · simp [handleSignup, navigations, h]
    · have e : App (some user) "/patient/dashboard" =
          some (ProtectedRoute (some user) (some "patient") Page.PatientDashboard) := rfl
      rw [e, (protectedRoute_some_iff (some user) "patient" hp Page.PatientDashboard).mpr
        ⟨user, rfl, h⟩]
  · intro h
    refine ⟨?_, ?_, ?_⟩
    · simp [handleLogin, navigations, h]
    · simp [handleSignup, navigations, h]
    · have e : App (some user) "/doctor/dashboard" =
          some (ProtectedRoute (some user) (some "doctor") Page.DoctorDashboard) := rfl
      rw [e, (protectedRoute_some_iff (some user) "doctor" hd Page.DoctorDashboard).mpr
        ⟨user, rfl, h⟩]

/-- Witness of C26: a patient who logs in lands on the patient dashboard. -/
theorem auth_navigation_admitted_witness :
    navigations (handleLogin (Outcome.resolved (some ⟨some "patient", some "Ann"⟩))
      AuthState.initial).2 = ["/patient/dashboard"] ∧
    App (some ⟨some "patient", some "Ann"⟩) "/patient/dashboard" =
      some (Rendered.children Page.PatientDashboard) :=
  ⟨((auth_navigation_admitted AuthState.initial ⟨some "patient", some "Ann"⟩).1 rfl).1,
   ((auth_navigation_admitted AuthState.initial ⟨some "patient", some "Ann"⟩).1 rfl).2.2⟩

/-! ## Redirects end -/

theorem protectedRoute_cases {α : Type} (user : Option User) (role : Option String) (page : α) :
    ProtectedRoute user role page = Rendered.children page ∨
    ProtectedRoute user role page = Rendered.navigate "/auth" ∨
    ProtectedRoute user role page = Rendered.navigate "/" := by
  cases user with
  | none => exact Or.inr (Or.inl rfl)
  | some u =>
    unfold ProtectedRoute
    simp only
    split
    · exact Or.inr (Or.inr rfl)
    · exact Or.inl rfl

theorem followRedirects_guarded (user : Option User) (path role : String) (page : Page)
    (e : App user path = some (ProtectedRoute user (some role) page)) :
    (∃ reached, followRedirects user 1 path = some reached) ∧
    (∀ target, App user path = some (Rendered.navigate target) →
      target = "/" ∨ target = "/auth") := by
  have hroot : followRedirects user 0 "/" = some Page.LandingPage := rfl
  have hauth : followRedirects user 0 "/auth" = some Page.AuthPage := rfl
  rcases protectedRoute_cases user (some role) page with h | h | h
  · rw [h] at e
    refine ⟨⟨page, ?_⟩, ?_⟩
    · unfold followRedirects
      rw [e]
    · intro target ht
      rw [e] at ht
      simp at ht
  · rw [h] at e
    refine ⟨⟨Page.AuthPage, ?_⟩, ?_⟩
    · unfold followRedirects
      rw [e]
      exact hauth
    · intro target ht
      rw [e] at ht
      simp at ht
      exact Or.inr ht.symm
  · rw [h] at e
    refine ⟨⟨Page.LandingPage, ?_⟩, ?_⟩
    · unfold followRedirects
      rw [e]
      exact hroot
    · intro target ht
      rw [e] at ht
      simp at ht
      exact Or.inl ht.symm

/-- C27: route guarding never loops: for every path of the route table of `App`
and every user state, following the redirects reaches a rendered page after at
most one redirect; every redirect the table issues goes to `/` or to `/auth`,
and these two routes render their page for every user state without a
redirect. -/
theorem redirects_end_after_one (user : Option User) (path : String)
    (hPath : path ∈ routes.map Prod.fst) :
    (∃ reached, followRedirects user 1 path = some reached) ∧
    (∀ target, App user path = some (Rendered.navigate target) →
      target = "/" ∨ target = "/auth") ∧
    followRedirects user 0 "/" = some Page.LandingPage ∧
    followRedirects user 0 "/auth" = some Page.AuthPage := by
  have hroot : followRedirects user 0 "/" = some Page.LandingPage := rfl
  have hauth : followRedirects user 0 "/auth" = some Page.AuthPage := rfl
  have split3 : ∀ {a b : Prop}, a ∧ b → a ∧ b ∧
      followRedirects user 0 "/" = some Page.LandingPage ∧
      followRedirects user 0 "/auth" = some Page.AuthPage :=
    fun h => ⟨h.1, h.2, hroot, hauth⟩
  simp only [routes, List.map_cons, List.map_nil, List.mem_cons, List.mem_singleton,
    List.mem_nil_iff, or_false] at hPath
  rcases hPath with h | h | h | h | h | h
  · subst h
    refine ⟨⟨Page.LandingPage, rfl⟩, ?_, hroot, hauth⟩
    intro target ht
    have e : App user "/" = some (Rendered.children Page.LandingPage) := rfl
    rw [e] at ht
    simp at ht
  · subst h
    refine ⟨⟨Page.AuthPage, rfl⟩, ?_, hroot, hauth⟩
    intro target ht
    have e : App user "/auth" = some (Rendered.children Page.AuthPage) := rfl
    rw [e] at ht
    simp at ht
  · subst h
    exact split3 (followRedirects_guarded user _ "patient" Page.PatientDashboard rfl)
  · subst h
    exact split3 (followRedirects_guarded user _ "patient" Page.ChatbotPage rfl)
  · subst h
    exact split3 (followRedirects_guarded user _ "doctor" Page.DoctorDashboard rfl)
  · subst h
    exact split3 (followRedirects_guarded user _ "doctor" Page.SummaryView rfl)

/-- Witness of C27: a visitor without a user who asks for the doctor dashboard
reaches the auth page after one redirect. -/
theorem redirects_end_after_one_witness :
    (∃ reached, followRedirects none 1 "/doctor/dashboard" = some reached) ∧
    followRedirects none 1 "/doctor/dashboard" = some Page.AuthPage ∧
    followRedirects none 0 "/doctor/dashboard" = none :=
  ⟨(redirects_end_after_one none "/doctor/dashboard" (by decide)).1, by decide, by decide⟩

/-! ## Booking without a selected doctor -/

/-- C28: when no doctor is selected, `handleBookAppointment` returns normally
with the state unchanged (`bookingDoctor`, `slot` and the appointment list among
it) and its only effect is the toast `Failed to book appointment`, so no request
is sent to `/patient/book`; `bookingDoctor` is `null` in the initial state and
after every successful booking. -/
theorem handleBookAppointment_no_doctor (env : PageEnv) (postOutcome fetchOutcome : Outcome JsVal)
    (posted : JsVal) (d : JsObj) (s : PatientState) :
    PatientDashboard.handleBookAppointment env postOutcome fetchOutcome
        { s with bookingDoctor := none } =
      ({ s with bookingDoctor := none }, [Effect.toastError "Failed to book appointment"]) ∧
    requests (PatientDashboard.handleBookAppointment env postOutcome fetchOutcome
        { s with bookingDoctor := none }).2 = [] ∧
    PatientState.initial.bookingDoctor = none ∧
    (PatientDashboard.handleBookAppointment env (Outcome.resolved posted) fetchOutcome
        { s with bookingDoctor := some d }).1.bookingDoctor = none := by
  refine ⟨rfl, rfl, rfl, ?_⟩
  cases fetchOutcome <;> rfl

/-! ## Narrowing the search, and the counters -/

theorem nameContains_of_infix (lower : String → String) (s t : String)
    (hst : (lower s).data <:+: (lower t).data) (apt : JsVal)
    (h : nameContains lower t apt = true) : nameContains lower s apt = true := by
  unfold nameContains at h ⊢
  cases hn : patientName apt with
  | none => simp [hn] at h
  | some name =>
    simp only [hn, decide_eq_true_eq] at h ⊢
    exact List.IsInfix.trans hst h

theorem not_nullish_of_isAppointment (apt : JsVal) (h : isAppointment apt = true) :
    apt.isNullish = false := by
  cases apt with
  | obj fields => rfl
  | undefined => simp [isAppointment] at h
  | null => simp [isAppointment] at h
  | bool b => simp [isAppointment] at h
  | num n => simp [isAppointment] at h
  | str t => simp [isAppointment] at h
  | arr items => simp [isAppointment] at h

theorem counters_of_appointments (items : List JsVal) (loading : Bool) (term : String)
    (hItems : ∀ apt ∈ items, isAppointment apt = true) :
    ∃ pending active,
      counters { appointments := JsVal.arr items, loading := loading, searchTerm := term } =
        some (items.length, pending, active) := by
  have h1 : filterThrowing hasSummary items =
      some (items.filter (fun a => jsTruthy (a.prop "summary"))) :=
    filterThrowing_of_total hasSummary _ items (fun apt hapt => by
      simp [hasSummary, not_nullish_of_isAppointment apt (hItems apt hapt)])
  have h2 : filterThrowing isBooked items =
      some (items.filter (fun a =>
        match a.prop "status" with
        | JsVal.str status => status == "booked"
        | _ => false)) :=
    filterThrowing_of_total isBooked _ items (fun apt hapt => by
      simp only [isBooked, not_nullish_of_isAppointment apt (hItems apt hapt)]
      cases apt.prop "status" <;> rfl)
  refine ⟨(items.filter (fun a => jsTruthy (a.prop "summary"))).length,
    (items.filter (fun a =>
      match a.prop "status" with
      | JsVal.str status => status == "booked"
      | _ => false)).length, ?_⟩
  simp only [counters, h1, h2]

/-- C29: the search filter narrows monotonically: for every list of appointment
records and all search terms `s` and `t` such that `s` lower-cased is a
substring of `t` lower-cased, both filters evaluate and the appointments listed
for `t` are a sublist of those listed for `s`, so each of them is also listed
for `s`, whatever the built-in lower-casing `lower` is; and the three counters
evaluate on the whole list, the first being its length, and are the same
whatever the search term is set to. -/
theorem search_narrows_monotonically (lower : String → String) (items : List JsVal)
    (s t : String) (state : DoctorState)
    (hItems : ∀ apt ∈ items, isAppointment apt = true)
    (hst : (lower s).data <:+: (lower t).data) :
    (∃ forS forT, filteredAppointments lower (JsVal.arr items) s = some forS ∧
      filteredAppointments lower (JsVal.arr items) t = some forT ∧
      forT.Sublist forS ∧ ∀ apt ∈ forT, apt ∈ forS) ∧
    counters (setSearchTerm t state) = counters state ∧
    counters (setSearchTerm s state) = counters state ∧
    (∃ pending active,
      counters (setSearchTerm t { state with appointments := JsVal.arr items }) =
        some (items.length, pending, active)) := by
  have key : ∀ term : String, filteredAppointments lower (JsVal.arr items) term =
      some (items.filter (nameContains lower term)) := fun term =>
    filterThrowing_of_total (matchesSearch lower term) (nameContains lower term) items
      (fun apt hapt => matchesSearch_of_isAppointment lower term apt (hItems apt hapt))
  have hsub : (items.filter (nameContains lower t)).Sublist
      (items.filter (nameContains lower s)) :=
    List.monotone_filter_right items (fun apt h => nameContains_of_infix lower s t hst apt h)
  exact ⟨⟨_, _, key s, key t, hsub, fun apt h => hsub.subset h⟩, rfl, rfl,
    counters_of_appointments items state.loading t hItems⟩

/-- Witness of C29: with `é` and `JOSÉ` as search terms, the appointments
listed for `JOSÉ` are among those listed for `é`; on these texts of characters
below U+0100 the built-in lower-casing is `toLowerCaseLatin1`. -/
theorem search_narrows_monotonically_witness :
    ∃ forS forT,
      filteredAppointments toLowerCaseLatin1
        (JsVal.arr
          [ JsVal.obj [("appointment_id", JsVal.str "a1"), ("status", JsVal.str "booked"),
              ("patient", JsVal.obj [("name", JsVal.str "José Álvarez")])],
            JsVal.obj [("appointment_id", JsVal.str "a2"),
              ("patient", JsVal.obj [("name", JsVal.str "Éric")])] ]) "é" = some forS ∧
      filteredAppointments toLowerCaseLatin1
        (JsVal.arr
          [ JsVal.obj [("appointment_id", JsVal.str "a1"), ("status", JsVal.str "booked"),
              ("patient", JsVal.obj [("name", JsVal.str "José Álvarez")])],
            JsVal.obj [("appointment_id", JsVal.str "a2"),
              ("patient", JsVal.obj [("name", JsVal.str "Éric")])] ]) "JOSÉ" = some forT ∧
      forT.Sublist forS ∧ ∀ apt ∈ forT, apt ∈ forS :=
  (search_narrows_monotonically toLowerCaseLatin1
    [ JsVal.obj [("appointment_id", JsVal.str "a1"), ("status", JsVal.str "booked"),
        ("patient", JsVal.obj [("name", JsVal.str "José Álvarez")])],
      JsVal.obj [("appointment_id", JsVal.str "a2"),
        ("patient", JsVal.obj [("name", JsVal.str "Éric")])] ] "é" "JOSÉ" DoctorState.initial
    (by decide) (by decide)).1

end Medicure
